import Mathlib

set_option maxHeartbeats 4000000
set_option maxRecDepth 100000

/-!
Shallow embedding of `src/keywords.rs` of sqlparser-rusty: the `Keyword` symbol
space, the parallel `ALL_KEYWORDS` / `ALL_KEYWORDS_INDEX` tables produced by the
`define_keywords!` macro, the two alias-disambiguation sets, and the
spelling-to-symbol lookup described in the specification (the lookup itself and
the alias-reservation membership tests live in the tokenizer/parser, outside the
provided sources, and are modelled from the spec where noted).

The long keyword tables are split into chunks of forty entries purely to keep
elaboration fast; the concatenations below restore the exact declaration order
of the source.
-/

/-- The keyword symbol space of src/keywords.rs: the Rust enum `Keyword`, with
the sentinel `NoKeyword` first, followed by one constructor per declared keyword
in declaration order. -/
inductive Keyword where
  | NoKeyword
  | ABORT
  | ABS
  | ABSOLUTE
  | ACTION
  | ADD
  | ADMIN
  | AGAINST
  | ALL
  | ALLOCATE
  | ALTER
  | ALWAYS
  | ANALYZE
  | AND
  | ANTI
  | ANY
  | APPLY
  | ARCHIVE
  | ARE
  | ARRAY
  | ARRAY_AGG
  | ARRAY_MAX_CARDINALITY
  | AS
  | ASC
  | ASENSITIVE
  | ASSERT
  | ASYMMETRIC
  | AT
  | ATOMIC
  | ATTACH
  | AUTHORIZATION
  | AUTO
  | AUTOINCREMENT
  | AUTO_INCREMENT
  | AVG
  | AVRO
  | BACKWARD
  | BASE64
  | BEGIN
  | BEGIN_FRAME
  | BEGIN_PARTITION
  | BETWEEN
  | BIGDECIMAL
  | BIGINT
  | BIGNUMERIC
  | BINARY
  | BINDING
  | BLOB
  | BLOOMFILTER
  | BOOL
  | BOOLEAN
  | BOTH
  | BROWSE
  | BTREE
  | BY
  | BYPASSRLS
  | BYTEA
  | BYTES
  | CACHE
  | CALL
  | CALLED
  | CARDINALITY
  | CASCADE
  | CASCADED
  | CASE
  | CAST
  | CEIL
  | CEILING
  | CENTURY
  | CHAIN
  | CHANGE
  | CHAR
  | CHARACTER
  | CHARACTERS
  | CHARACTER_LENGTH
  | CHARSET
  | CHAR_LENGTH
  | CHECK
  | CLOB
  | CLONE
  | CLOSE
  | CLUSTER
  | COALESCE
  | COLLATE
  | COLLATION
  | COLLECT
  | COLUMN
  | COLUMNS
  | COMMENT
  | COMMIT
  | COMMITTED
  | COMPRESSION
  | COMPUTE
  | CONCURRENTLY
  | CONDITION
  | CONFLICT
  | CONNECT
  | CONNECTION
  | CONSTRAINT
  | CONTAINS
  | CONVERT
  | COPY
  | COPY_OPTIONS
  | CORR
  | CORRESPONDING
  | COUNT
  | COVAR_POP
  | COVAR_SAMP
  | CREATE
  | CREATEDB
  | CREATEROLE
  | CREDENTIALS
  | CROSS
  | CSV
  | CUBE
  | CUME_DIST
  | CURRENT
  | CURRENT_CATALOG
  | CURRENT_DATE
  | CURRENT_DEFAULT_TRANSFORM_GROUP
  | CURRENT_PATH
  | CURRENT_ROLE
  | CURRENT_ROW
  | CURRENT_SCHEMA
  | CURRENT_TIME
  | CURRENT_TIMESTAMP
  | CURRENT_TRANSFORM_GROUP_FOR_TYPE
  | CURRENT_USER
  | CURSOR
  | CYCLE
  | DATA
  | DATABASE
  | DATE
  | DATETIME
  | DAY
  | DAYOFWEEK
  | DAYOFYEAR
  | DEALLOCATE
  | DEC
  | DECADE
  | DECIMAL
  | DECLARE
  | DEFAULT
  | DEFERRED
  | DELETE
  | DELIMITED
  | DELIMITER
  | DELTA
  | DENSE_RANK
  | DEREF
  | DESC
  | DESCRIBE
  | DETAIL
  | DETERMINISTIC
  | DIRECTORY
  | DISCARD
  | DISCONNECT
  | DISTINCT
  | DISTRIBUTE
  | DIV
  | DO
  | DOUBLE
  | DOW
  | DOY
  | DROP
  | DRY
  | DUPLICATE
  | DYNAMIC
  | EACH
  | ELEMENT
  | ELEMENTS
  | ELSE
  | EMPTY
  | ENCODING
  | ENCRYPTION
  | END
  | END_EXEC
  | ENDPOINT
  | END_FRAME
  | END_PARTITION
  | ENGINE
  | ENUM
  | EPOCH
  | EQUALS
  | ERROR
  | ESCAPE
  | EVENT
  | EVERY
  | EXCEPT
  | EXCLUDE
  | EXCLUSIVE
  | EXEC
  | EXECUTE
  | EXISTS
  | EXP
  | EXPANSION
  | EXPLAIN
  | EXPLICIT
  | EXTENDED
  | EXTERNAL
  | EXTRACT
  | FAIL
  | FALSE
  | FETCH
  | FIELDS
  | FILE
  | FILES
  | FILE_FORMAT
  | FILTER
  | FIRST
  | FIRST_VALUE
  | FLOAT
  | FLOAT4
  | FLOAT64
  | FLOAT8
  | FLOOR
  | FOLLOWING
  | FOR
  | FORCE
  | FORCE_NOT_NULL
  | FORCE_NULL
  | FORCE_QUOTE
  | FOREIGN
  | FORMAT
  | FORWARD
  | FRAME_ROW
  | FREE
  | FREEZE
  | FROM
  | FSCK
  | FULL
  | FULLTEXT
  | FUNCTION
  | FUNCTIONS
  | FUSION
  | GENERATE
  | GENERATED
  | GEOGRAPHY
  | GET
  | GLOBAL
  | GRANT
  | GRANTED
  | GRAPHVIZ
  | GROUP
  | GROUPING
  | GROUPS
  | HASH
  | HAVING
  | HEADER
  | HISTORY
  | HIVEVAR
  | HOLD
  | HOUR
  | HOURS
  | IDENTITY
  | IF
  | IGNORE
  | ILIKE
  | IMMEDIATE
  | IMMUTABLE
  | IN
  | INCLUDE
  | INCLUDE_NULL_VALUES
  | INCREMENT
  | INDEX
  | INDICATOR
  | INHERIT
  | INNER
  | INOUT
  | INPUTFORMAT
  | INSENSITIVE
  | INSERT
  | INT
  | INT2
  | INT4
  | INT64
  | INT8
  | INTEGER
  | INTERSECT
  | INTERSECTION
  | INTERVAL
  | INTO
  | IS
  | ISODOW
  | ISOLATION
  | ISOWEEK
  | ISOYEAR
  | JAR
  | JOIN
  | JSON
  | JSONFILE
  | JSON_TABLE
  | JULIAN
  | KEY
  | KILL
  | LAG
  | LANGUAGE
  | LARGE
  | LAST
  | LAST_VALUE
  | LATERAL
  | LEAD
  | LEADING
  | LEFT
  | LEVEL
  | LIKE
  | LIKE_REGEX
  | LIMIT
  | LISTAGG
  | LN
  | LOCAL
  | LOCALTIME
  | LOCALTIMESTAMP
  | LOCATION
  | LOCK
  | LOCKED
  | LOGIN
  | LOWER
  | LOW_PRIORITY
  | MACRO
  | MANAGEDLOCATION
  | MATCH
  | MATCHED
  | MATERIALIZED
  | MAX
  | MAXVALUE
  | MEDIUMINT
  | MEMBER
  | MERGE
  | METADATA
  | METHOD
  | MICROSECOND
  | MICROSECONDS
  | MILLENIUM
  | MILLENNIUM
  | MILLISECOND
  | MILLISECONDS
  | MIN
  | MINUTE
  | MINVALUE
  | MOD
  | MODE
  | MODIFIES
  | MODULE
  | MONTH
  | MSCK
  | MULTISET
  | MUTATION
  | NAME
  | NANOSECOND
  | NANOSECONDS
  | NATIONAL
  | NATURAL
  | NCHAR
  | NCLOB
  | NEW
  | NEXT
  | NO
  | NOBYPASSRLS
  | NOCREATEDB
  | NOCREATEROLE
  | NOINHERIT
  | NOLOGIN
  | NONE
  | NOREPLICATION
  | NORMALIZE
  | NOSCAN
  | NOSUPERUSER
  | NOT
  | NOTHING
  | NOWAIT
  | NTH_VALUE
  | NTILE
  | NULL
  | NULLIF
  | NULLS
  | NUMERIC
  | NVARCHAR
  | OBJECT
  | OCCURRENCES_REGEX
  | OCTETS
  | OCTET_LENGTH
  | OF
  | OFFSET
  | OLD
  | ON
  | ONLY
  | OPEN
  | OPERATOR
  | OPTIMIZE
  | OPTION
  | OPTIONS
  | OR
  | ORC
  | ORDER
  | OUT
  | OUTER
  | OUTPUTFORMAT
  | OVER
  | OVERFLOW
  | OVERLAPS
  | OVERLAY
  | OVERWRITE
  | OWNED
  | PARAMETER
  | PARQUET
  | PARTITION
  | PARTITIONED
  | PARTITIONS
  | PASSWORD
  | PATH
  | PATTERN
  | PERCENT
  | PERCENTILE_CONT
  | PERCENTILE_DISC
  | PERCENT_RANK
  | PERIOD
  | PIVOT
  | PLACING
  | PLANS
  | PORTION
  | POSITION
  | POSITION_REGEX
  | POWER
  | PRAGMA
  | PRECEDES
  | PRECEDING
  | PRECISION
  | PREPARE
  | PRESERVE
  | PRIMARY
  | PRIOR
  | PRIVILEGES
  | PROCEDURE
  | PROGRAM
  | PURGE
  | QUALIFY
  | QUARTER
  | QUERY
  | QUOTE
  | RANGE
  | RANK
  | RAW
  | RCFILE
  | READ
  | READS
  | REAL
  | RECURSIVE
  | REF
  | REFERENCES
  | REFERENCING
  | REGCLASS
  | REGEXP
  | REGR_AVGX
  | REGR_AVGY
  | REGR_COUNT
  | REGR_INTERCEPT
  | REGR_R2
  | REGR_SLOPE
  | REGR_SXX
  | REGR_SXY
  | REGR_SYY
  | RELATIVE
  | RELEASE
  | RENAME
  | REORG
  | REPAIR
  | REPEATABLE
  | REPLACE
  | REPLICATION
  | RESET
  | RESPECT
  | RESTRICT
  | RESULT
  | RETAIN
  | RETURN
  | RETURNING
  | RETURNS
  | REVOKE
  | RIGHT
  | RLIKE
  | ROLE
  | ROLLBACK
  | ROLLUP
  | ROOT
  | ROW
  | ROWID
  | ROWS
  | ROW_NUMBER
  | RUN
  | SAFE_CAST
  | SAVEPOINT
  | SCHEMA
  | SCOPE
  | SCROLL
  | SEARCH
  | SECOND
  | SELECT
  | SEMI
  | SENSITIVE
  | SEQUENCE
  | SEQUENCEFILE
  | SEQUENCES
  | SERDE
  | SERIALIZABLE
  | SESSION
  | SESSION_USER
  | SET
  | SETS
  | SHARE
  | SHOW
  | SIMILAR
  | SKIP
  | SMALLINT
  | SNAPSHOT
  | SOME
  | SORT
  | SPATIAL
  | SPECIFIC
  | SPECIFICTYPE
  | SQL
  | SQLEXCEPTION
  | SQLSTATE
  | SQLWARNING
  | SQRT
  | STABLE
  | STAGE
  | START
  | STATIC
  | STATISTICS
  | STDDEV_POP
  | STDDEV_SAMP
  | STDIN
  | STDOUT
  | STORAGE_INTEGRATION
  | STORED
  | STRICT
  | STRING
  | STRUCT
  | SUBMULTISET
  | SUBSTRING
  | SUBSTRING_REGEX
  | SUCCEEDS
  | SUM
  | SUPER
  | SUPERUSER
  | SWAP
  | SYMMETRIC
  | SYNC
  | SYSTEM
  | SYSTEM_TIME
  | SYSTEM_USER
  | TABLE
  | TABLES
  | TABLESAMPLE
  | TBLPROPERTIES
  | TEMP
  | TEMPORARY
  | TEXT
  | TEXTFILE
  | THEN
  | TIES
  | TIME
  | TIMESTAMP
  | TIMESTAMPTZ
  | TIMETZ
  | TIMEZONE
  | TIMEZONE_HOUR
  | TIMEZONE_MINUTE
  | TINYINT
  | TO
  | TOP
  | TRAILING
  | TRANSACTION
  | TRANSIENT
  | TRANSLATE
  | TRANSLATE_REGEX
  | TRANSLATION
  | TREAT
  | TRIGGER
  | TRIM
  | TRIM_ARRAY
  | TRUE
  | TRUNCATE
  | TRY_CAST
  | TYPE
  | UESCAPE
  | UNBOUNDED
  | UNCACHE
  | UNCOMMITTED
  | UNION
  | UNIQUE
  | UNKNOWN
  | UNLOCK
  | UNLOGGED
  | UNNEST
  | UNPIVOT
  | UNSIGNED
  | UNTIL
  | UPDATE
  | UPPER
  | URL
  | USAGE
  | USE
  | USER
  | USING
  | UUID
  | VACUUM
  | VALID
  | VALIDATION_MODE
  | VALUE
  | VALUES
  | VALUE_OF
  | VARBINARY
  | VARCHAR
  | VARIABLES
  | VARYING
  | VAR_POP
  | VAR_SAMP
  | VERBOSE
  | VERSIONING
  | VIEW
  | VIRTUAL
  | VOLATILE
  | WEEK
  | WHEN
  | WHENEVER
  | WHERE
  | WIDTH_BUCKET
  | WINDOW
  | WITH
  | WITHIN
  | WITHOUT
  | WITHOUT_ARRAY_WRAPPER
  | WORK
  | WRITE
  | XML
  | XOR
  | YEAR
  | ZONE
  | ZORDER
deriving DecidableEq

def kwIdxChunk0 : List Keyword := [.ABORT, .ABS, .ABSOLUTE, .ACTION, .ADD, .ADMIN, .AGAINST, .ALL, .ALLOCATE, .ALTER, .ALWAYS, .ANALYZE, .AND, .ANTI, .ANY, .APPLY, .ARCHIVE, .ARE, .ARRAY, .ARRAY_AGG, .ARRAY_MAX_CARDINALITY, .AS, .ASC, .ASENSITIVE, .ASSERT, .ASYMMETRIC, .AT, .ATOMIC, .ATTACH, .AUTHORIZATION, .AUTO, .AUTOINCREMENT, .AUTO_INCREMENT, .AVG, .AVRO, .BACKWARD, .BASE64, .BEGIN, .BEGIN_FRAME, .BEGIN_PARTITION]

def kwIdxChunk1 : List Keyword := [.BETWEEN, .BIGDECIMAL, .BIGINT, .BIGNUMERIC, .BINARY, .BINDING, .BLOB, .BLOOMFILTER, .BOOL, .BOOLEAN, .BOTH, .BROWSE, .BTREE, .BY, .BYPASSRLS, .BYTEA, .BYTES, .CACHE, .CALL, .CALLED, .CARDINALITY, .CASCADE, .CASCADED, .CASE, .CAST, .CEIL, .CEILING, .CENTURY, .CHAIN, .CHANGE, .CHAR, .CHARACTER, .CHARACTERS, .CHARACTER_LENGTH, .CHARSET, .CHAR_LENGTH, .CHECK, .CLOB, .CLONE, .CLOSE]

def kwIdxChunk2 : List Keyword := [.CLUSTER, .COALESCE, .COLLATE, .COLLATION, .COLLECT, .COLUMN, .COLUMNS, .COMMENT, .COMMIT, .COMMITTED, .COMPRESSION, .COMPUTE, .CONCURRENTLY, .CONDITION, .CONFLICT, .CONNECT, .CONNECTION, .CONSTRAINT, .CONTAINS, .CONVERT, .COPY, .COPY_OPTIONS, .CORR, .CORRESPONDING, .COUNT, .COVAR_POP, .COVAR_SAMP, .CREATE, .CREATEDB, .CREATEROLE, .CREDENTIALS, .CROSS, .CSV, .CUBE, .CUME_DIST, .CURRENT, .CURRENT_CATALOG, .CURRENT_DATE, .CURRENT_DEFAULT_TRANSFORM_GROUP, .CURRENT_PATH]

def kwIdxChunk3 : List Keyword := [.CURRENT_ROLE, .CURRENT_ROW, .CURRENT_SCHEMA, .CURRENT_TIME, .CURRENT_TIMESTAMP, .CURRENT_TRANSFORM_GROUP_FOR_TYPE, .CURRENT_USER, .CURSOR, .CYCLE, .DATA, .DATABASE, .DATE, .DATETIME, .DAY, .DAYOFWEEK, .DAYOFYEAR, .DEALLOCATE, .DEC, .DECADE, .DECIMAL, .DECLARE, .DEFAULT, .DEFERRED, .DELETE, .DELIMITED, .DELIMITER, .DELTA, .DENSE_RANK, .DEREF, .DESC, .DESCRIBE, .DETAIL, .DETERMINISTIC, .DIRECTORY, .DISCARD, .DISCONNECT, .DISTINCT, .DISTRIBUTE, .DIV, .DO]

def kwIdxChunk4 : List Keyword := [.DOUBLE, .DOW, .DOY, .DROP, .DRY, .DUPLICATE, .DYNAMIC, .EACH, .ELEMENT, .ELEMENTS, .ELSE, .EMPTY, .ENCODING, .ENCRYPTION, .END, .END_EXEC, .ENDPOINT, .END_FRAME, .END_PARTITION, .ENGINE, .ENUM, .EPOCH, .EQUALS, .ERROR, .ESCAPE, .EVENT, .EVERY, .EXCEPT, .EXCLUDE, .EXCLUSIVE, .EXEC, .EXECUTE, .EXISTS, .EXP, .EXPANSION, .EXPLAIN, .EXPLICIT, .EXTENDED, .EXTERNAL, .EXTRACT]

def kwIdxChunk5 : List Keyword := [.FAIL, .FALSE, .FETCH, .FIELDS, .FILE, .FILES, .FILE_FORMAT, .FILTER, .FIRST, .FIRST_VALUE, .FLOAT, .FLOAT4, .FLOAT64, .FLOAT8, .FLOOR, .FOLLOWING, .FOR, .FORCE, .FORCE_NOT_NULL, .FORCE_NULL, .FORCE_QUOTE, .FOREIGN, .FORMAT, .FORWARD, .FRAME_ROW, .FREE, .FREEZE, .FROM, .FSCK, .FULL, .FULLTEXT, .FUNCTION, .FUNCTIONS, .FUSION, .GENERATE, .GENERATED, .GEOGRAPHY, .GET, .GLOBAL, .GRANT]

def kwIdxChunk6 : List Keyword := [.GRANTED, .GRAPHVIZ, .GROUP, .GROUPING, .GROUPS, .HASH, .HAVING, .HEADER, .HISTORY, .HIVEVAR, .HOLD, .HOUR, .HOURS, .IDENTITY, .IF, .IGNORE, .ILIKE, .IMMEDIATE, .IMMUTABLE, .IN, .INCLUDE, .INCLUDE_NULL_VALUES, .INCREMENT, .INDEX, .INDICATOR, .INHERIT, .INNER, .INOUT, .INPUTFORMAT, .INSENSITIVE, .INSERT, .INT, .INT2, .INT4, .INT64, .INT8, .INTEGER, .INTERSECT, .INTERSECTION, .INTERVAL]

def kwIdxChunk7 : List Keyword := [.INTO, .IS, .ISODOW, .ISOLATION, .ISOWEEK, .ISOYEAR, .JAR, .JOIN, .JSON, .JSONFILE, .JSON_TABLE, .JULIAN, .KEY, .KILL, .LAG, .LANGUAGE, .LARGE, .LAST, .LAST_VALUE, .LATERAL, .LEAD, .LEADING, .LEFT, .LEVEL, .LIKE, .LIKE_REGEX, .LIMIT, .LISTAGG, .LN, .LOCAL, .LOCALTIME, .LOCALTIMESTAMP, .LOCATION, .LOCK, .LOCKED, .LOGIN, .LOWER, .LOW_PRIORITY, .MACRO, .MANAGEDLOCATION]

def kwIdxChunk8 : List Keyword := [.MATCH, .MATCHED, .MATERIALIZED, .MAX, .MAXVALUE, .MEDIUMINT, .MEMBER, .MERGE, .METADATA, .METHOD, .MICROSECOND, .MICROSECONDS, .MILLENIUM, .MILLENNIUM, .MILLISECOND, .MILLISECONDS, .MIN, .MINUTE, .MINVALUE, .MOD, .MODE, .MODIFIES, .MODULE, .MONTH, .MSCK, .MULTISET, .MUTATION, .NAME, .NANOSECOND, .NANOSECONDS, .NATIONAL, .NATURAL, .NCHAR, .NCLOB, .NEW, .NEXT, .NO, .NOBYPASSRLS, .NOCREATEDB, .NOCREATEROLE]

def kwIdxChunk9 : List Keyword := [.NOINHERIT, .NOLOGIN, .NONE, .NOREPLICATION, .NORMALIZE, .NOSCAN, .NOSUPERUSER, .NOT, .NOTHING, .NOWAIT, .NTH_VALUE, .NTILE, .NULL, .NULLIF, .NULLS, .NUMERIC, .NVARCHAR, .OBJECT, .OCCURRENCES_REGEX, .OCTETS, .OCTET_LENGTH, .OF, .OFFSET, .OLD, .ON, .ONLY, .OPEN, .OPERATOR, .OPTIMIZE, .OPTION, .OPTIONS, .OR, .ORC, .ORDER, .OUT, .OUTER, .OUTPUTFORMAT, .OVER, .OVERFLOW, .OVERLAPS]

def kwIdxChunk10 : List Keyword := [.OVERLAY, .OVERWRITE, .OWNED, .PARAMETER, .PARQUET, .PARTITION, .PARTITIONED, .PARTITIONS, .PASSWORD, .PATH, .PATTERN, .PERCENT, .PERCENTILE_CONT, .PERCENTILE_DISC, .PERCENT_RANK, .PERIOD, .PIVOT, .PLACING, .PLANS, .PORTION, .POSITION, .POSITION_REGEX, .POWER, .PRAGMA, .PRECEDES, .PRECEDING, .PRECISION, .PREPARE, .PRESERVE, .PRIMARY, .PRIOR, .PRIVILEGES, .PROCEDURE, .PROGRAM, .PURGE, .QUALIFY, .QUARTER, .QUERY, .QUOTE, .RANGE]

def kwIdxChunk11 : List Keyword := [.RANK, .RAW, .RCFILE, .READ, .READS, .REAL, .RECURSIVE, .REF, .REFERENCES, .REFERENCING, .REGCLASS, .REGEXP, .REGR_AVGX, .REGR_AVGY, .REGR_COUNT, .REGR_INTERCEPT, .REGR_R2, .REGR_SLOPE, .REGR_SXX, .REGR_SXY, .REGR_SYY, .RELATIVE, .RELEASE, .RENAME, .REORG, .REPAIR, .REPEATABLE, .REPLACE, .REPLICATION, .RESET, .RESPECT, .RESTRICT, .RESULT, .RETAIN, .RETURN, .RETURNING, .RETURNS, .REVOKE, .RIGHT, .RLIKE]

def kwIdxChunk12 : List Keyword := [.ROLE, .ROLLBACK, .ROLLUP, .ROOT, .ROW, .ROWID, .ROWS, .ROW_NUMBER, .RUN, .SAFE_CAST, .SAVEPOINT, .SCHEMA, .SCOPE, .SCROLL, .SEARCH, .SECOND, .SELECT, .SEMI, .SENSITIVE, .SEQUENCE, .SEQUENCEFILE, .SEQUENCES, .SERDE, .SERIALIZABLE, .SESSION, .SESSION_USER, .SET, .SETS, .SHARE, .SHOW, .SIMILAR, .SKIP, .SMALLINT, .SNAPSHOT, .SOME, .SORT, .SPATIAL, .SPECIFIC, .SPECIFICTYPE, .SQL]

def kwIdxChunk13 : List Keyword := [.SQLEXCEPTION, .SQLSTATE, .SQLWARNING, .SQRT, .STABLE, .STAGE, .START, .STATIC, .STATISTICS, .STDDEV_POP, .STDDEV_SAMP, .STDIN, .STDOUT, .STORAGE_INTEGRATION, .STORED, .STRICT, .STRING, .STRUCT, .SUBMULTISET, .SUBSTRING, .SUBSTRING_REGEX, .SUCCEEDS, .SUM, .SUPER, .SUPERUSER, .SWAP, .SYMMETRIC, .SYNC, .SYSTEM, .SYSTEM_TIME, .SYSTEM_USER, .TABLE, .TABLES, .TABLESAMPLE, .TBLPROPERTIES, .TEMP, .TEMPORARY, .TEXT, .TEXTFILE, .THEN]

def kwIdxChunk14 : List Keyword := [.TIES, .TIME, .TIMESTAMP, .TIMESTAMPTZ, .TIMETZ, .TIMEZONE, .TIMEZONE_HOUR, .TIMEZONE_MINUTE, .TINYINT, .TO, .TOP, .TRAILING, .TRANSACTION, .TRANSIENT, .TRANSLATE, .TRANSLATE_REGEX, .TRANSLATION, .TREAT, .TRIGGER, .TRIM, .TRIM_ARRAY, .TRUE, .TRUNCATE, .TRY_CAST, .TYPE, .UESCAPE, .UNBOUNDED, .UNCACHE, .UNCOMMITTED, .UNION, .UNIQUE, .UNKNOWN, .UNLOCK, .UNLOGGED, .UNNEST, .UNPIVOT, .UNSIGNED, .UNTIL, .UPDATE, .UPPER]

def kwIdxChunk15 : List Keyword := [.URL, .USAGE, .USE, .USER, .USING, .UUID, .VACUUM, .VALID, .VALIDATION_MODE, .VALUE, .VALUES, .VALUE_OF, .VARBINARY, .VARCHAR, .VARIABLES, .VARYING, .VAR_POP, .VAR_SAMP, .VERBOSE, .VERSIONING, .VIEW, .VIRTUAL, .VOLATILE, .WEEK, .WHEN, .WHENEVER, .WHERE, .WIDTH_BUCKET, .WINDOW, .WITH, .WITHIN, .WITHOUT, .WITHOUT_ARRAY_WRAPPER, .WORK, .WRITE, .XML, .XOR, .YEAR, .ZONE, .ZORDER]

/-- `ALL_KEYWORDS_INDEX` from src/keywords.rs: every declared keyword symbol, in
declaration order (the sentinel is not declared and does not appear). -/
def ALL_KEYWORDS_INDEX : List Keyword :=
  kwIdxChunk0 ++ kwIdxChunk1 ++ kwIdxChunk2 ++ kwIdxChunk3 ++ kwIdxChunk4 ++ kwIdxChunk5 ++ kwIdxChunk6 ++ kwIdxChunk7 ++ kwIdxChunk8 ++ kwIdxChunk9 ++ kwIdxChunk10 ++ kwIdxChunk11 ++ kwIdxChunk12 ++ kwIdxChunk13 ++ kwIdxChunk14 ++ kwIdxChunk15

def kwStrChunk0 : List String := ["ABORT", "ABS", "ABSOLUTE", "ACTION", "ADD", "ADMIN", "AGAINST", "ALL", "ALLOCATE", "ALTER", "ALWAYS", "ANALYZE", "AND", "ANTI", "ANY", "APPLY", "ARCHIVE", "ARE", "ARRAY", "ARRAY_AGG", "ARRAY_MAX_CARDINALITY", "AS", "ASC", "ASENSITIVE", "ASSERT", "ASYMMETRIC", "AT", "ATOMIC", "ATTACH", "AUTHORIZATION", "AUTO", "AUTOINCREMENT", "AUTO_INCREMENT", "AVG", "AVRO", "BACKWARD", "BASE64", "BEGIN", "BEGIN_FRAME", "BEGIN_PARTITION"]

def kwStrChunk1 : List String := ["BETWEEN", "BIGDECIMAL", "BIGINT", "BIGNUMERIC", "BINARY", "BINDING", "BLOB", "BLOOMFILTER", "BOOL", "BOOLEAN", "BOTH", "BROWSE", "BTREE", "BY", "BYPASSRLS", "BYTEA", "BYTES", "CACHE", "CALL", "CALLED", "CARDINALITY", "CASCADE", "CASCADED", "CASE", "CAST", "CEIL", "CEILING", "CENTURY", "CHAIN", "CHANGE", "CHAR", "CHARACTER", "CHARACTERS", "CHARACTER_LENGTH", "CHARSET", "CHAR_LENGTH", "CHECK", "CLOB", "CLONE", "CLOSE"]

def kwStrChunk2 : List String := ["CLUSTER", "COALESCE", "COLLATE", "COLLATION", "COLLECT", "COLUMN", "COLUMNS", "COMMENT", "COMMIT", "COMMITTED", "COMPRESSION", "COMPUTE", "CONCURRENTLY", "CONDITION", "CONFLICT", "CONNECT", "CONNECTION", "CONSTRAINT", "CONTAINS", "CONVERT", "COPY", "COPY_OPTIONS", "CORR", "CORRESPONDING", "COUNT", "COVAR_POP", "COVAR_SAMP", "CREATE", "CREATEDB", "CREATEROLE", "CREDENTIALS", "CROSS", "CSV", "CUBE", "CUME_DIST", "CURRENT", "CURRENT_CATALOG", "CURRENT_DATE", "CURRENT_DEFAULT_TRANSFORM_GROUP", "CURRENT_PATH"]

def kwStrChunk3 : List String := ["CURRENT_ROLE", "CURRENT_ROW", "CURRENT_SCHEMA", "CURRENT_TIME", "CURRENT_TIMESTAMP", "CURRENT_TRANSFORM_GROUP_FOR_TYPE", "CURRENT_USER", "CURSOR", "CYCLE", "DATA", "DATABASE", "DATE", "DATETIME", "DAY", "DAYOFWEEK", "DAYOFYEAR", "DEALLOCATE", "DEC", "DECADE", "DECIMAL", "DECLARE", "DEFAULT", "DEFERRED", "DELETE", "DELIMITED", "DELIMITER", "DELTA", "DENSE_RANK", "DEREF", "DESC", "DESCRIBE", "DETAIL", "DETERMINISTIC", "DIRECTORY", "DISCARD", "DISCONNECT", "DISTINCT", "DISTRIBUTE", "DIV", "DO"]

def kwStrChunk4 : List String := ["DOUBLE", "DOW", "DOY", "DROP", "DRY", "DUPLICATE", "DYNAMIC", "EACH", "ELEMENT", "ELEMENTS", "ELSE", "EMPTY", "ENCODING", "ENCRYPTION", "END", "END-EXEC", "ENDPOINT", "END_FRAME", "END_PARTITION", "ENGINE", "ENUM", "EPOCH", "EQUALS", "ERROR", "ESCAPE", "EVENT", "EVERY", "EXCEPT", "EXCLUDE", "EXCLUSIVE", "EXEC", "EXECUTE", "EXISTS", "EXP", "EXPANSION", "EXPLAIN", "EXPLICIT", "EXTENDED", "EXTERNAL", "EXTRACT"]

def kwStrChunk5 : List String := ["FAIL", "FALSE", "FETCH", "FIELDS", "FILE", "FILES", "FILE_FORMAT", "FILTER", "FIRST", "FIRST_VALUE", "FLOAT", "FLOAT4", "FLOAT64", "FLOAT8", "FLOOR", "FOLLOWING", "FOR", "FORCE", "FORCE_NOT_NULL", "FORCE_NULL", "FORCE_QUOTE", "FOREIGN", "FORMAT", "FORWARD", "FRAME_ROW", "FREE", "FREEZE", "FROM", "FSCK", "FULL", "FULLTEXT", "FUNCTION", "FUNCTIONS", "FUSION", "GENERATE", "GENERATED", "GEOGRAPHY", "GET", "GLOBAL", "GRANT"]

def kwStrChunk6 : List String := ["GRANTED", "GRAPHVIZ", "GROUP", "GROUPING", "GROUPS", "HASH", "HAVING", "HEADER", "HISTORY", "HIVEVAR", "HOLD", "HOUR", "HOURS", "IDENTITY", "IF", "IGNORE", "ILIKE", "IMMEDIATE", "IMMUTABLE", "IN", "INCLUDE", "INCLUDE_NULL_VALUES", "INCREMENT", "INDEX", "INDICATOR", "INHERIT", "INNER", "INOUT", "INPUTFORMAT", "INSENSITIVE", "INSERT", "INT", "INT2", "INT4", "INT64", "INT8", "INTEGER", "INTERSECT", "INTERSECTION", "INTERVAL"]

def kwStrChunk7 : List String := ["INTO", "IS", "ISODOW", "ISOLATION", "ISOWEEK", "ISOYEAR", "JAR", "JOIN", "JSON", "JSONFILE", "JSON_TABLE", "JULIAN", "KEY", "KILL", "LAG", "LANGUAGE", "LARGE", "LAST", "LAST_VALUE", "LATERAL", "LEAD", "LEADING", "LEFT", "LEVEL", "LIKE", "LIKE_REGEX", "LIMIT", "LISTAGG", "LN", "LOCAL", "LOCALTIME", "LOCALTIMESTAMP", "LOCATION", "LOCK", "LOCKED", "LOGIN", "LOWER", "LOW_PRIORITY", "MACRO", "MANAGEDLOCATION"]

def kwStrChunk8 : List String := ["MATCH", "MATCHED", "MATERIALIZED", "MAX", "MAXVALUE", "MEDIUMINT", "MEMBER", "MERGE", "METADATA", "METHOD", "MICROSECOND", "MICROSECONDS", "MILLENIUM", "MILLENNIUM", "MILLISECOND", "MILLISECONDS", "MIN", "MINUTE", "MINVALUE", "MOD", "MODE", "MODIFIES", "MODULE", "MONTH", "MSCK", "MULTISET", "MUTATION", "NAME", "NANOSECOND", "NANOSECONDS", "NATIONAL", "NATURAL", "NCHAR", "NCLOB", "NEW", "NEXT", "NO", "NOBYPASSRLS", "NOCREATEDB", "NOCREATEROLE"]

def kwStrChunk9 : List String := ["NOINHERIT", "NOLOGIN", "NONE", "NOREPLICATION", "NORMALIZE", "NOSCAN", "NOSUPERUSER", "NOT", "NOTHING", "NOWAIT", "NTH_VALUE", "NTILE", "NULL", "NULLIF", "NULLS", "NUMERIC", "NVARCHAR", "OBJECT", "OCCURRENCES_REGEX", "OCTETS", "OCTET_LENGTH", "OF", "OFFSET", "OLD", "ON", "ONLY", "OPEN", "OPERATOR", "OPTIMIZE", "OPTION", "OPTIONS", "OR", "ORC", "ORDER", "OUT", "OUTER", "OUTPUTFORMAT", "OVER", "OVERFLOW", "OVERLAPS"]

def kwStrChunk10 : List String := ["OVERLAY", "OVERWRITE", "OWNED", "PARAMETER", "PARQUET", "PARTITION", "PARTITIONED", "PARTITIONS", "PASSWORD", "PATH", "PATTERN", "PERCENT", "PERCENTILE_CONT", "PERCENTILE_DISC", "PERCENT_RANK", "PERIOD", "PIVOT", "PLACING", "PLANS", "PORTION", "POSITION", "POSITION_REGEX", "POWER", "PRAGMA", "PRECEDES", "PRECEDING", "PRECISION", "PREPARE", "PRESERVE", "PRIMARY", "PRIOR", "PRIVILEGES", "PROCEDURE", "PROGRAM", "PURGE", "QUALIFY", "QUARTER", "QUERY", "QUOTE", "RANGE"]

def kwStrChunk11 : List String := ["RANK", "RAW", "RCFILE", "READ", "READS", "REAL", "RECURSIVE", "REF", "REFERENCES", "REFERENCING", "REGCLASS", "REGEXP", "REGR_AVGX", "REGR_AVGY", "REGR_COUNT", "REGR_INTERCEPT", "REGR_R2", "REGR_SLOPE", "REGR_SXX", "REGR_SXY", "REGR_SYY", "RELATIVE", "RELEASE", "RENAME", "REORG", "REPAIR", "REPEATABLE", "REPLACE", "REPLICATION", "RESET", "RESPECT", "RESTRICT", "RESULT", "RETAIN", "RETURN", "RETURNING", "RETURNS", "REVOKE", "RIGHT", "RLIKE"]

def kwStrChunk12 : List String := ["ROLE", "ROLLBACK", "ROLLUP", "ROOT", "ROW", "ROWID", "ROWS", "ROW_NUMBER", "RUN", "SAFE_CAST", "SAVEPOINT", "SCHEMA", "SCOPE", "SCROLL", "SEARCH", "SECOND", "SELECT", "SEMI", "SENSITIVE", "SEQUENCE", "SEQUENCEFILE", "SEQUENCES", "SERDE", "SERIALIZABLE", "SESSION", "SESSION_USER", "SET", "SETS", "SHARE", "SHOW", "SIMILAR", "SKIP", "SMALLINT", "SNAPSHOT", "SOME", "SORT", "SPATIAL", "SPECIFIC", "SPECIFICTYPE", "SQL"]

def kwStrChunk13 : List String := ["SQLEXCEPTION", "SQLSTATE", "SQLWARNING", "SQRT", "STABLE", "STAGE", "START", "STATIC", "STATISTICS", "STDDEV_POP", "STDDEV_SAMP", "STDIN", "STDOUT", "STORAGE_INTEGRATION", "STORED", "STRICT", "STRING", "STRUCT", "SUBMULTISET", "SUBSTRING", "SUBSTRING_REGEX", "SUCCEEDS", "SUM", "SUPER", "SUPERUSER", "SWAP", "SYMMETRIC", "SYNC", "SYSTEM", "SYSTEM_TIME", "SYSTEM_USER", "TABLE", "TABLES", "TABLESAMPLE", "TBLPROPERTIES", "TEMP", "TEMPORARY", "TEXT", "TEXTFILE", "THEN"]

def kwStrChunk14 : List String := ["TIES", "TIME", "TIMESTAMP", "TIMESTAMPTZ", "TIMETZ", "TIMEZONE", "TIMEZONE_HOUR", "TIMEZONE_MINUTE", "TINYINT", "TO", "TOP", "TRAILING", "TRANSACTION", "TRANSIENT", "TRANSLATE", "TRANSLATE_REGEX", "TRANSLATION", "TREAT", "TRIGGER", "TRIM", "TRIM_ARRAY", "TRUE", "TRUNCATE", "TRY_CAST", "TYPE", "UESCAPE", "UNBOUNDED", "UNCACHE", "UNCOMMITTED", "UNION", "UNIQUE", "UNKNOWN", "UNLOCK", "UNLOGGED", "UNNEST", "UNPIVOT", "UNSIGNED", "UNTIL", "UPDATE", "UPPER"]

def kwStrChunk15 : List String := ["URL", "USAGE", "USE", "USER", "USING", "UUID", "VACUUM", "VALID", "VALIDATION_MODE", "VALUE", "VALUES", "VALUE_OF", "VARBINARY", "VARCHAR", "VARIABLES", "VARYING", "VAR_POP", "VAR_SAMP", "VERBOSE", "VERSIONING", "VIEW", "VIRTUAL", "VOLATILE", "WEEK", "WHEN", "WHENEVER", "WHERE", "WIDTH_BUCKET", "WINDOW", "WITH", "WITHIN", "WITHOUT", "WITHOUT_ARRAY_WRAPPER", "WORK", "WRITE", "XML", "XOR", "YEAR", "ZONE", "ZORDER"]

/-- `ALL_KEYWORDS` from src/keywords.rs: the canonical spellings in declaration
order; each entry is the `kw_def!` string constant for the keyword at the same
position of `ALL_KEYWORDS_INDEX` (the identifier itself, except
`END_EXEC = "END-EXEC"`). -/
def ALL_KEYWORDS : List String :=
  kwStrChunk0 ++ kwStrChunk1 ++ kwStrChunk2 ++ kwStrChunk3 ++ kwStrChunk4 ++ kwStrChunk5 ++ kwStrChunk6 ++ kwStrChunk7 ++ kwStrChunk8 ++ kwStrChunk9 ++ kwStrChunk10 ++ kwStrChunk11 ++ kwStrChunk12 ++ kwStrChunk13 ++ kwStrChunk14 ++ kwStrChunk15

/-- The name of each `Keyword` constructor, as written in the source (what Rust
`stringify!($ident)` yields inside `define_keywords!`). -/
def kwName : Keyword -> String
  | .NoKeyword => "NoKeyword"
  | .ABORT => "ABORT"
  | .ABS => "ABS"
  | .ABSOLUTE => "ABSOLUTE"
  | .ACTION => "ACTION"
  | .ADD => "ADD"
  | .ADMIN => "ADMIN"
  | .AGAINST => "AGAINST"
  | .ALL => "ALL"
  | .ALLOCATE => "ALLOCATE"
  | .ALTER => "ALTER"
  | .ALWAYS => "ALWAYS"
  | .ANALYZE => "ANALYZE"
  | .AND => "AND"
  | .ANTI => "ANTI"
  | .ANY => "ANY"
  | .APPLY => "APPLY"
  | .ARCHIVE => "ARCHIVE"
  | .ARE => "ARE"
  | .ARRAY => "ARRAY"
  | .ARRAY_AGG => "ARRAY_AGG"
  | .ARRAY_MAX_CARDINALITY => "ARRAY_MAX_CARDINALITY"
  | .AS => "AS"
  | .ASC => "ASC"
  | .ASENSITIVE => "ASENSITIVE"
  | .ASSERT => "ASSERT"
  | .ASYMMETRIC => "ASYMMETRIC"
  | .AT => "AT"
  | .ATOMIC => "ATOMIC"
  | .ATTACH => "ATTACH"
  | .AUTHORIZATION => "AUTHORIZATION"
  | .AUTO => "AUTO"
  | .AUTOINCREMENT => "AUTOINCREMENT"
  | .AUTO_INCREMENT => "AUTO_INCREMENT"
  | .AVG => "AVG"
  | .AVRO => "AVRO"
  | .BACKWARD => "BACKWARD"
  | .BASE64 => "BASE64"
  | .BEGIN => "BEGIN"
  | .BEGIN_FRAME => "BEGIN_FRAME"
  | .BEGIN_PARTITION => "BEGIN_PARTITION"
  | .BETWEEN => "BETWEEN"
  | .BIGDECIMAL => "BIGDECIMAL"
  | .BIGINT => "BIGINT"
  | .BIGNUMERIC => "BIGNUMERIC"
  | .BINARY => "BINARY"
  | .BINDING => "BINDING"
  | .BLOB => "BLOB"
  | .BLOOMFILTER => "BLOOMFILTER"
  | .BOOL => "BOOL"
  | .BOOLEAN => "BOOLEAN"
  | .BOTH => "BOTH"
  | .BROWSE => "BROWSE"
  | .BTREE => "BTREE"
  | .BY => "BY"
  | .BYPASSRLS => "BYPASSRLS"
  | .BYTEA => "BYTEA"
  | .BYTES => "BYTES"
  | .CACHE => "CACHE"
  | .CALL => "CALL"
  | .CALLED => "CALLED"
  | .CARDINALITY => "CARDINALITY"
  | .CASCADE => "CASCADE"
  | .CASCADED => "CASCADED"
  | .CASE => "CASE"
  | .CAST => "CAST"
  | .CEIL => "CEIL"
  | .CEILING => "CEILING"
  | .CENTURY => "CENTURY"
  | .CHAIN => "CHAIN"
  | .CHANGE => "CHANGE"
  | .CHAR => "CHAR"
  | .CHARACTER => "CHARACTER"
  | .CHARACTERS => "CHARACTERS"
  | .CHARACTER_LENGTH => "CHARACTER_LENGTH"
  | .CHARSET => "CHARSET"
  | .CHAR_LENGTH => "CHAR_LENGTH"
  | .CHECK => "CHECK"
  | .CLOB => "CLOB"
  | .CLONE => "CLONE"
  | .CLOSE => "CLOSE"
  | .CLUSTER => "CLUSTER"
  | .COALESCE => "COALESCE"
  | .COLLATE => "COLLATE"
  | .COLLATION => "COLLATION"
  | .COLLECT => "COLLECT"
  | .COLUMN => "COLUMN"
  | .COLUMNS => "COLUMNS"
  | .COMMENT => "COMMENT"
  | .COMMIT => "COMMIT"
  | .COMMITTED => "COMMITTED"
  | .COMPRESSION => "COMPRESSION"
  | .COMPUTE => "COMPUTE"
  | .CONCURRENTLY => "CONCURRENTLY"
  | .CONDITION => "CONDITION"
  | .CONFLICT => "CONFLICT"
  | .CONNECT => "CONNECT"
  | .CONNECTION => "CONNECTION"
  | .CONSTRAINT => "CONSTRAINT"
  | .CONTAINS => "CONTAINS"
  | .CONVERT => "CONVERT"
  | .COPY => "COPY"
  | .COPY_OPTIONS => "COPY_OPTIONS"
  | .CORR => "CORR"
  | .CORRESPONDING => "CORRESPONDING"
  | .COUNT => "COUNT"
  | .COVAR_POP => "COVAR_POP"
  | .COVAR_SAMP => "COVAR_SAMP"
  | .CREATE => "CREATE"
  | .CREATEDB => "CREATEDB"
  | .CREATEROLE => "CREATEROLE"
  | .CREDENTIALS => "CREDENTIALS"
  | .CROSS => "CROSS"
  | .CSV => "CSV"
  | .CUBE => "CUBE"
  | .CUME_DIST => "CUME_DIST"
  | .CURRENT => "CURRENT"
  | .CURRENT_CATALOG => "CURRENT_CATALOG"
  | .CURRENT_DATE => "CURRENT_DATE"
  | .CURRENT_DEFAULT_TRANSFORM_GROUP => "CURRENT_DEFAULT_TRANSFORM_GROUP"
  | .CURRENT_PATH => "CURRENT_PATH"
  | .CURRENT_ROLE => "CURRENT_ROLE"
  | .CURRENT_ROW => "CURRENT_ROW"
  | .CURRENT_SCHEMA => "CURRENT_SCHEMA"
  | .CURRENT_TIME => "CURRENT_TIME"
  | .CURRENT_TIMESTAMP => "CURRENT_TIMESTAMP"
  | .CURRENT_TRANSFORM_GROUP_FOR_TYPE => "CURRENT_TRANSFORM_GROUP_FOR_TYPE"
  | .CURRENT_USER => "CURRENT_USER"
  | .CURSOR => "CURSOR"
  | .CYCLE => "CYCLE"
  | .DATA => "DATA"
  | .DATABASE => "DATABASE"
  | .DATE => "DATE"
  | .DATETIME => "DATETIME"
  | .DAY => "DAY"
  | .DAYOFWEEK => "DAYOFWEEK"
  | .DAYOFYEAR => "DAYOFYEAR"
  | .DEALLOCATE => "DEALLOCATE"
  | .DEC => "DEC"
  | .DECADE => "DECADE"
  | .DECIMAL => "DECIMAL"
  | .DECLARE => "DECLARE"
  | .DEFAULT => "DEFAULT"
  | .DEFERRED => "DEFERRED"
  | .DELETE => "DELETE"
  | .DELIMITED => "DELIMITED"
  | .DELIMITER => "DELIMITER"
  | .DELTA => "DELTA"
  | .DENSE_RANK => "DENSE_RANK"
  | .DEREF => "DEREF"
  | .DESC => "DESC"
  | .DESCRIBE => "DESCRIBE"
  | .DETAIL => "DETAIL"
  | .DETERMINISTIC => "DETERMINISTIC"
  | .DIRECTORY => "DIRECTORY"
  | .DISCARD => "DISCARD"
  | .DISCONNECT => "DISCONNECT"
  | .DISTINCT => "DISTINCT"
  | .DISTRIBUTE => "DISTRIBUTE"
  | .DIV => "DIV"
  | .DO => "DO"
  | .DOUBLE => "DOUBLE"
  | .DOW => "DOW"
  | .DOY => "DOY"
  | .DROP => "DROP"
  | .DRY => "DRY"
  | .DUPLICATE => "DUPLICATE"
  | .DYNAMIC => "DYNAMIC"
  | .EACH => "EACH"
  | .ELEMENT => "ELEMENT"
  | .ELEMENTS => "ELEMENTS"
  | .ELSE => "ELSE"
  | .EMPTY => "EMPTY"
  | .ENCODING => "ENCODING"
  | .ENCRYPTION => "ENCRYPTION"
  | .END => "END"
  | .END_EXEC => "END_EXEC"
  | .ENDPOINT => "ENDPOINT"
  | .END_FRAME => "END_FRAME"
  | .END_PARTITION => "END_PARTITION"
  | .ENGINE => "ENGINE"
  | .ENUM => "ENUM"
  | .EPOCH => "EPOCH"
  | .EQUALS => "EQUALS"
  | .ERROR => "ERROR"
  | .ESCAPE => "ESCAPE"
  | .EVENT => "EVENT"
  | .EVERY => "EVERY"
  | .EXCEPT => "EXCEPT"
  | .EXCLUDE => "EXCLUDE"
  | .EXCLUSIVE => "EXCLUSIVE"
  | .EXEC => "EXEC"
  | .EXECUTE => "EXECUTE"
  | .EXISTS => "EXISTS"
  | .EXP => "EXP"
  | .EXPANSION => "EXPANSION"
  | .EXPLAIN => "EXPLAIN"
  | .EXPLICIT => "EXPLICIT"
  | .EXTENDED => "EXTENDED"
  | .EXTERNAL => "EXTERNAL"
  | .EXTRACT => "EXTRACT"
  | .FAIL => "FAIL"
  | .FALSE => "FALSE"
  | .FETCH => "FETCH"
  | .FIELDS => "FIELDS"
  | .FILE => "FILE"
  | .FILES => "FILES"
  | .FILE_FORMAT => "FILE_FORMAT"
  | .FILTER => "FILTER"
  | .FIRST => "FIRST"
  | .FIRST_VALUE => "FIRST_VALUE"
  | .FLOAT => "FLOAT"
  | .FLOAT4 => "FLOAT4"
  | .FLOAT64 => "FLOAT64"
  | .FLOAT8 => "FLOAT8"
  | .FLOOR => "FLOOR"
  | .FOLLOWING => "FOLLOWING"
  | .FOR => "FOR"
  | .FORCE => "FORCE"
  | .FORCE_NOT_NULL => "FORCE_NOT_NULL"
  | .FORCE_NULL => "FORCE_NULL"
  | .FORCE_QUOTE => "FORCE_QUOTE"
  | .FOREIGN => "FOREIGN"
  | .FORMAT => "FORMAT"
  | .FORWARD => "FORWARD"
  | .FRAME_ROW => "FRAME_ROW"
  | .FREE => "FREE"
  | .FREEZE => "FREEZE"
  | .FROM => "FROM"
  | .FSCK => "FSCK"
  | .FULL => "FULL"
  | .FULLTEXT => "FULLTEXT"
  | .FUNCTION => "FUNCTION"
  | .FUNCTIONS => "FUNCTIONS"
  | .FUSION => "FUSION"
  | .GENERATE => "GENERATE"
  | .GENERATED => "GENERATED"
  | .GEOGRAPHY => "GEOGRAPHY"
  | .GET => "GET"
  | .GLOBAL => "GLOBAL"
  | .GRANT => "GRANT"
  | .GRANTED => "GRANTED"
  | .GRAPHVIZ => "GRAPHVIZ"
  | .GROUP => "GROUP"
  | .GROUPING => "GROUPING"
  | .GROUPS => "GROUPS"
  | .HASH => "HASH"
  | .HAVING => "HAVING"
  | .HEADER => "HEADER"
  | .HISTORY => "HISTORY"
  | .HIVEVAR => "HIVEVAR"
  | .HOLD => "HOLD"
  | .HOUR => "HOUR"
  | .HOURS => "HOURS"
  | .IDENTITY => "IDENTITY"
  | .IF => "IF"
  | .IGNORE => "IGNORE"
  | .ILIKE => "ILIKE"
  | .IMMEDIATE => "IMMEDIATE"
  | .IMMUTABLE => "IMMUTABLE"
  | .IN => "IN"
  | .INCLUDE => "INCLUDE"
  | .INCLUDE_NULL_VALUES => "INCLUDE_NULL_VALUES"
  | .INCREMENT => "INCREMENT"
  | .INDEX => "INDEX"
  | .INDICATOR => "INDICATOR"
  | .INHERIT => "INHERIT"
  | .INNER => "INNER"
  | .INOUT => "INOUT"
  | .INPUTFORMAT => "INPUTFORMAT"
  | .INSENSITIVE => "INSENSITIVE"
  | .INSERT => "INSERT"
  | .INT => "INT"
  | .INT2 => "INT2"
  | .INT4 => "INT4"
  | .INT64 => "INT64"
  | .INT8 => "INT8"
  | .INTEGER => "INTEGER"
  | .INTERSECT => "INTERSECT"
  | .INTERSECTION => "INTERSECTION"
  | .INTERVAL => "INTERVAL"
  | .INTO => "INTO"
  | .IS => "IS"
  | .ISODOW => "ISODOW"
  | .ISOLATION => "ISOLATION"
  | .ISOWEEK => "ISOWEEK"
  | .ISOYEAR => "ISOYEAR"
  | .JAR => "JAR"
  | .JOIN => "JOIN"
  | .JSON => "JSON"
  | .JSONFILE => "JSONFILE"
  | .JSON_TABLE => "JSON_TABLE"
  | .JULIAN => "JULIAN"
  | .KEY => "KEY"
  | .KILL => "KILL"
  | .LAG => "LAG"
  | .LANGUAGE => "LANGUAGE"
  | .LARGE => "LARGE"
  | .LAST => "LAST"
  | .LAST_VALUE => "LAST_VALUE"
  | .LATERAL => "LATERAL"
  | .LEAD => "LEAD"
  | .LEADING => "LEADING"
  | .LEFT => "LEFT"
  | .LEVEL => "LEVEL"
  | .LIKE => "LIKE"
  | .LIKE_REGEX => "LIKE_REGEX"
  | .LIMIT => "LIMIT"
  | .LISTAGG => "LISTAGG"
  | .LN => "LN"
  | .LOCAL => "LOCAL"
  | .LOCALTIME => "LOCALTIME"
  | .LOCALTIMESTAMP => "LOCALTIMESTAMP"
  | .LOCATION => "LOCATION"
  | .LOCK => "LOCK"
  | .LOCKED => "LOCKED"
  | .LOGIN => "LOGIN"
  | .LOWER => "LOWER"
  | .LOW_PRIORITY => "LOW_PRIORITY"
  | .MACRO => "MACRO"
  | .MANAGEDLOCATION => "MANAGEDLOCATION"
  | .MATCH => "MATCH"
  | .MATCHED => "MATCHED"
  | .MATERIALIZED => "MATERIALIZED"
  | .MAX => "MAX"
  | .MAXVALUE => "MAXVALUE"
  | .MEDIUMINT => "MEDIUMINT"
  | .MEMBER => "MEMBER"
  | .MERGE => "MERGE"
  | .METADATA => "METADATA"
  | .METHOD => "METHOD"
  | .MICROSECOND => "MICROSECOND"
  | .MICROSECONDS => "MICROSECONDS"
  | .MILLENIUM => "MILLENIUM"
  | .MILLENNIUM => "MILLENNIUM"
  | .MILLISECOND => "MILLISECOND"
  | .MILLISECONDS => "MILLISECONDS"
  | .MIN => "MIN"
  | .MINUTE => "MINUTE"
  | .MINVALUE => "MINVALUE"
  | .MOD => "MOD"
  | .MODE => "MODE"
  | .MODIFIES => "MODIFIES"
  | .MODULE => "MODULE"
  | .MONTH => "MONTH"
  | .MSCK => "MSCK"
  | .MULTISET => "MULTISET"
  | .MUTATION => "MUTATION"
  | .NAME => "NAME"
  | .NANOSECOND => "NANOSECOND"
  | .NANOSECONDS => "NANOSECONDS"
  | .NATIONAL => "NATIONAL"
  | .NATURAL => "NATURAL"
  | .NCHAR => "NCHAR"
  | .NCLOB => "NCLOB"
  | .NEW => "NEW"
  | .NEXT => "NEXT"
  | .NO => "NO"
  | .NOBYPASSRLS => "NOBYPASSRLS"
  | .NOCREATEDB => "NOCREATEDB"
  | .NOCREATEROLE => "NOCREATEROLE"
  | .NOINHERIT => "NOINHERIT"
  | .NOLOGIN => "NOLOGIN"
  | .NONE => "NONE"
  | .NOREPLICATION => "NOREPLICATION"
  | .NORMALIZE => "NORMALIZE"
  | .NOSCAN => "NOSCAN"
  | .NOSUPERUSER => "NOSUPERUSER"
  | .NOT => "NOT"
  | .NOTHING => "NOTHING"
  | .NOWAIT => "NOWAIT"
  | .NTH_VALUE => "NTH_VALUE"
  | .NTILE => "NTILE"
  | .NULL => "NULL"
  | .NULLIF => "NULLIF"
  | .NULLS => "NULLS"
  | .NUMERIC => "NUMERIC"
  | .NVARCHAR => "NVARCHAR"
  | .OBJECT => "OBJECT"
  | .OCCURRENCES_REGEX => "OCCURRENCES_REGEX"
  | .OCTETS => "OCTETS"
  | .OCTET_LENGTH => "OCTET_LENGTH"
  | .OF => "OF"
  | .OFFSET => "OFFSET"
  | .OLD => "OLD"
  | .ON => "ON"
  | .ONLY => "ONLY"
  | .OPEN => "OPEN"
  | .OPERATOR => "OPERATOR"
  | .OPTIMIZE => "OPTIMIZE"
  | .OPTION => "OPTION"
  | .OPTIONS => "OPTIONS"
  | .OR => "OR"
  | .ORC => "ORC"
  | .ORDER => "ORDER"
  | .OUT => "OUT"
  | .OUTER => "OUTER"
  | .OUTPUTFORMAT => "OUTPUTFORMAT"
  | .OVER => "OVER"
  | .OVERFLOW => "OVERFLOW"
  | .OVERLAPS => "OVERLAPS"
  | .OVERLAY => "OVERLAY"
  | .OVERWRITE => "OVERWRITE"
  | .OWNED => "OWNED"
  | .PARAMETER => "PARAMETER"
  | .PARQUET => "PARQUET"
  | .PARTITION => "PARTITION"
  | .PARTITIONED => "PARTITIONED"
  | .PARTITIONS => "PARTITIONS"
  | .PASSWORD => "PASSWORD"
  | .PATH => "PATH"
  | .PATTERN => "PATTERN"
  | .PERCENT => "PERCENT"
  | .PERCENTILE_CONT => "PERCENTILE_CONT"
  | .PERCENTILE_DISC => "PERCENTILE_DISC"
  | .PERCENT_RANK => "PERCENT_RANK"
  | .PERIOD => "PERIOD"
  | .PIVOT => "PIVOT"
  | .PLACING => "PLACING"
  | .PLANS => "PLANS"
  | .PORTION => "PORTION"
  | .POSITION => "POSITION"
  | .POSITION_REGEX => "POSITION_REGEX"
  | .POWER => "POWER"
  | .PRAGMA => "PRAGMA"
  | .PRECEDES => "PRECEDES"
  | .PRECEDING => "PRECEDING"
  | .PRECISION => "PRECISION"
  | .PREPARE => "PREPARE"
  | .PRESERVE => "PRESERVE"
  | .PRIMARY => "PRIMARY"
  | .PRIOR => "PRIOR"
  | .PRIVILEGES => "PRIVILEGES"
  | .PROCEDURE => "PROCEDURE"
  | .PROGRAM => "PROGRAM"
  | .PURGE => "PURGE"
  | .QUALIFY => "QUALIFY"
  | .QUARTER => "QUARTER"
  | .QUERY => "QUERY"
  | .QUOTE => "QUOTE"
  | .RANGE => "RANGE"
  | .RANK => "RANK"
  | .RAW => "RAW"
  | .RCFILE => "RCFILE"
  | .READ => "READ"
  | .READS => "READS"
  | .REAL => "REAL"
  | .RECURSIVE => "RECURSIVE"
  | .REF => "REF"
  | .REFERENCES => "REFERENCES"
  | .REFERENCING => "REFERENCING"
  | .REGCLASS => "REGCLASS"
  | .REGEXP => "REGEXP"
  | .REGR_AVGX => "REGR_AVGX"
  | .REGR_AVGY => "REGR_AVGY"
  | .REGR_COUNT => "REGR_COUNT"
  | .REGR_INTERCEPT => "REGR_INTERCEPT"
  | .REGR_R2 => "REGR_R2"
  | .REGR_SLOPE => "REGR_SLOPE"
  | .REGR_SXX => "REGR_SXX"
  | .REGR_SXY => "REGR_SXY"
  | .REGR_SYY => "REGR_SYY"
  | .RELATIVE => "RELATIVE"
  | .RELEASE => "RELEASE"
  | .RENAME => "RENAME"
  | .REORG => "REORG"
  | .REPAIR => "REPAIR"
  | .REPEATABLE => "REPEATABLE"
  | .REPLACE => "REPLACE"
  | .REPLICATION => "REPLICATION"
  | .RESET => "RESET"
  | .RESPECT => "RESPECT"
  | .RESTRICT => "RESTRICT"
  | .RESULT => "RESULT"
  | .RETAIN => "RETAIN"
  | .RETURN => "RETURN"
  | .RETURNING => "RETURNING"
  | .RETURNS => "RETURNS"
  | .REVOKE => "REVOKE"
  | .RIGHT => "RIGHT"
  | .RLIKE => "RLIKE"
  | .ROLE => "ROLE"
  | .ROLLBACK => "ROLLBACK"
  | .ROLLUP => "ROLLUP"
  | .ROOT => "ROOT"
  | .ROW => "ROW"
  | .ROWID => "ROWID"
  | .ROWS => "ROWS"
  | .ROW_NUMBER => "ROW_NUMBER"
  | .RUN => "RUN"
  | .SAFE_CAST => "SAFE_CAST"
  | .SAVEPOINT => "SAVEPOINT"
  | .SCHEMA => "SCHEMA"
  | .SCOPE => "SCOPE"
  | .SCROLL => "SCROLL"
  | .SEARCH => "SEARCH"
  | .SECOND => "SECOND"
  | .SELECT => "SELECT"
  | .SEMI => "SEMI"
  | .SENSITIVE => "SENSITIVE"
  | .SEQUENCE => "SEQUENCE"
  | .SEQUENCEFILE => "SEQUENCEFILE"
  | .SEQUENCES => "SEQUENCES"
  | .SERDE => "SERDE"
  | .SERIALIZABLE => "SERIALIZABLE"
  | .SESSION => "SESSION"
  | .SESSION_USER => "SESSION_USER"
  | .SET => "SET"
  | .SETS => "SETS"
  | .SHARE => "SHARE"
  | .SHOW => "SHOW"
  | .SIMILAR => "SIMILAR"
  | .SKIP => "SKIP"
  | .SMALLINT => "SMALLINT"
  | .SNAPSHOT => "SNAPSHOT"
  | .SOME => "SOME"
  | .SORT => "SORT"
  | .SPATIAL => "SPATIAL"
  | .SPECIFIC => "SPECIFIC"
  | .SPECIFICTYPE => "SPECIFICTYPE"
  | .SQL => "SQL"
  | .SQLEXCEPTION => "SQLEXCEPTION"
  | .SQLSTATE => "SQLSTATE"
  | .SQLWARNING => "SQLWARNING"
  | .SQRT => "SQRT"
  | .STABLE => "STABLE"
  | .STAGE => "STAGE"
  | .START => "START"
  | .STATIC => "STATIC"
  | .STATISTICS => "STATISTICS"
  | .STDDEV_POP => "STDDEV_POP"
  | .STDDEV_SAMP => "STDDEV_SAMP"
  | .STDIN => "STDIN"
  | .STDOUT => "STDOUT"
  | .STORAGE_INTEGRATION => "STORAGE_INTEGRATION"
  | .STORED => "STORED"
  | .STRICT => "STRICT"
  | .STRING => "STRING"
  | .STRUCT => "STRUCT"
  | .SUBMULTISET => "SUBMULTISET"
  | .SUBSTRING => "SUBSTRING"
  | .SUBSTRING_REGEX => "SUBSTRING_REGEX"
  | .SUCCEEDS => "SUCCEEDS"
  | .SUM => "SUM"
  | .SUPER => "SUPER"
  | .SUPERUSER => "SUPERUSER"
  | .SWAP => "SWAP"
  | .SYMMETRIC => "SYMMETRIC"
  | .SYNC => "SYNC"
  | .SYSTEM => "SYSTEM"
  | .SYSTEM_TIME => "SYSTEM_TIME"
  | .SYSTEM_USER => "SYSTEM_USER"
  | .TABLE => "TABLE"
  | .TABLES => "TABLES"
  | .TABLESAMPLE => "TABLESAMPLE"
  | .TBLPROPERTIES => "TBLPROPERTIES"
  | .TEMP => "TEMP"
  | .TEMPORARY => "TEMPORARY"
  | .TEXT => "TEXT"
  | .TEXTFILE => "TEXTFILE"
  | .THEN => "THEN"
  | .TIES => "TIES"
  | .TIME => "TIME"
  | .TIMESTAMP => "TIMESTAMP"
  | .TIMESTAMPTZ => "TIMESTAMPTZ"
  | .TIMETZ => "TIMETZ"
  | .TIMEZONE => "TIMEZONE"
  | .TIMEZONE_HOUR => "TIMEZONE_HOUR"
  | .TIMEZONE_MINUTE => "TIMEZONE_MINUTE"
  | .TINYINT => "TINYINT"
  | .TO => "TO"
  | .TOP => "TOP"
  | .TRAILING => "TRAILING"
  | .TRANSACTION => "TRANSACTION"
  | .TRANSIENT => "TRANSIENT"
  | .TRANSLATE => "TRANSLATE"
  | .TRANSLATE_REGEX => "TRANSLATE_REGEX"
  | .TRANSLATION => "TRANSLATION"
  | .TREAT => "TREAT"
  | .TRIGGER => "TRIGGER"
  | .TRIM => "TRIM"
  | .TRIM_ARRAY => "TRIM_ARRAY"
  | .TRUE => "TRUE"
  | .TRUNCATE => "TRUNCATE"
  | .TRY_CAST => "TRY_CAST"
  | .TYPE => "TYPE"
  | .UESCAPE => "UESCAPE"
  | .UNBOUNDED => "UNBOUNDED"
  | .UNCACHE => "UNCACHE"
  | .UNCOMMITTED => "UNCOMMITTED"
  | .UNION => "UNION"
  | .UNIQUE => "UNIQUE"
  | .UNKNOWN => "UNKNOWN"
  | .UNLOCK => "UNLOCK"
  | .UNLOGGED => "UNLOGGED"
  | .UNNEST => "UNNEST"
  | .UNPIVOT => "UNPIVOT"
  | .UNSIGNED => "UNSIGNED"
  | .UNTIL => "UNTIL"
  | .UPDATE => "UPDATE"
  | .UPPER => "UPPER"
  | .URL => "URL"
  | .USAGE => "USAGE"
  | .USE => "USE"
  | .USER => "USER"
  | .USING => "USING"
  | .UUID => "UUID"
  | .VACUUM => "VACUUM"
  | .VALID => "VALID"
  | .VALIDATION_MODE => "VALIDATION_MODE"
  | .VALUE => "VALUE"
  | .VALUES => "VALUES"
  | .VALUE_OF => "VALUE_OF"
  | .VARBINARY => "VARBINARY"
  | .VARCHAR => "VARCHAR"
  | .VARIABLES => "VARIABLES"
  | .VARYING => "VARYING"
  | .VAR_POP => "VAR_POP"
  | .VAR_SAMP => "VAR_SAMP"
  | .VERBOSE => "VERBOSE"
  | .VERSIONING => "VERSIONING"
  | .VIEW => "VIEW"
  | .VIRTUAL => "VIRTUAL"
  | .VOLATILE => "VOLATILE"
  | .WEEK => "WEEK"
  | .WHEN => "WHEN"
  | .WHENEVER => "WHENEVER"
  | .WHERE => "WHERE"
  | .WIDTH_BUCKET => "WIDTH_BUCKET"
  | .WINDOW => "WINDOW"
  | .WITH => "WITH"
  | .WITHIN => "WITHIN"
  | .WITHOUT => "WITHOUT"
  | .WITHOUT_ARRAY_WRAPPER => "WITHOUT_ARRAY_WRAPPER"
  | .WORK => "WORK"
  | .WRITE => "WRITE"
  | .XML => "XML"
  | .XOR => "XOR"
  | .YEAR => "YEAR"
  | .ZONE => "ZONE"
  | .ZORDER => "ZORDER"

/-- The canonical spelling of each declared symbol, per the `kw_def!` constants
of src/keywords.rs (`pub const SELECT = "SELECT"`, ..., `pub const END_EXEC =
"END-EXEC"`); the sentinel `NoKeyword` has no spelling. -/
def spelling_of : Keyword -> Option String
  | .NoKeyword => none
  | .ABORT => some "ABORT"
  | .ABS => some "ABS"
  | .ABSOLUTE => some "ABSOLUTE"
  | .ACTION => some "ACTION"
  | .ADD => some "ADD"
  | .ADMIN => some "ADMIN"
  | .AGAINST => some "AGAINST"
  | .ALL => some "ALL"
  | .ALLOCATE => some "ALLOCATE"
  | .ALTER => some "ALTER"
  | .ALWAYS => some "ALWAYS"
  | .ANALYZE => some "ANALYZE"
  | .AND => some "AND"
  | .ANTI => some "ANTI"
  | .ANY => some "ANY"
  | .APPLY => some "APPLY"
  | .ARCHIVE => some "ARCHIVE"
  | .ARE => some "ARE"
  | .ARRAY => some "ARRAY"
  | .ARRAY_AGG => some "ARRAY_AGG"
  | .ARRAY_MAX_CARDINALITY => some "ARRAY_MAX_CARDINALITY"
  | .AS => some "AS"
  | .ASC => some "ASC"
  | .ASENSITIVE => some "ASENSITIVE"
  | .ASSERT => some "ASSERT"
  | .ASYMMETRIC => some "ASYMMETRIC"
  | .AT => some "AT"
  | .ATOMIC => some "ATOMIC"
  | .ATTACH => some "ATTACH"
  | .AUTHORIZATION => some "AUTHORIZATION"
  | .AUTO => some "AUTO"
  | .AUTOINCREMENT => some "AUTOINCREMENT"
  | .AUTO_INCREMENT => some "AUTO_INCREMENT"
  | .AVG => some "AVG"
  | .AVRO => some "AVRO"
  | .BACKWARD => some "BACKWARD"
  | .BASE64 => some "BASE64"
  | .BEGIN => some "BEGIN"
  | .BEGIN_FRAME => some "BEGIN_FRAME"
  | .BEGIN_PARTITION => some "BEGIN_PARTITION"
  | .BETWEEN => some "BETWEEN"
  | .BIGDECIMAL => some "BIGDECIMAL"
  | .BIGINT => some "BIGINT"
  | .BIGNUMERIC => some "BIGNUMERIC"
  | .BINARY => some "BINARY"
  | .BINDING => some "BINDING"
  | .BLOB => some "BLOB"
  | .BLOOMFILTER => some "BLOOMFILTER"
  | .BOOL => some "BOOL"
  | .BOOLEAN => some "BOOLEAN"
  | .BOTH => some "BOTH"
  | .BROWSE => some "BROWSE"
  | .BTREE => some "BTREE"
  | .BY => some "BY"
  | .BYPASSRLS => some "BYPASSRLS"
  | .BYTEA => some "BYTEA"
  | .BYTES => some "BYTES"
  | .CACHE => some "CACHE"
  | .CALL => some "CALL"
  | .CALLED => some "CALLED"
  | .CARDINALITY => some "CARDINALITY"
  | .CASCADE => some "CASCADE"
  | .CASCADED => some "CASCADED"
  | .CASE => some "CASE"
  | .CAST => some "CAST"
  | .CEIL => some "CEIL"
  | .CEILING => some "CEILING"
  | .CENTURY => some "CENTURY"
  | .CHAIN => some "CHAIN"
  | .CHANGE => some "CHANGE"
  | .CHAR => some "CHAR"
  | .CHARACTER => some "CHARACTER"
  | .CHARACTERS => some "CHARACTERS"
  | .CHARACTER_LENGTH => some "CHARACTER_LENGTH"
  | .CHARSET => some "CHARSET"
  | .CHAR_LENGTH => some "CHAR_LENGTH"
  | .CHECK => some "CHECK"
  | .CLOB => some "CLOB"
  | .CLONE => some "CLONE"
  | .CLOSE => some "CLOSE"
  | .CLUSTER => some "CLUSTER"
  | .COALESCE => some "COALESCE"
  | .COLLATE => some "COLLATE"
  | .COLLATION => some "COLLATION"
  | .COLLECT => some "COLLECT"
  | .COLUMN => some "COLUMN"
  | .COLUMNS => some "COLUMNS"
  | .COMMENT => some "COMMENT"
  | .COMMIT => some "COMMIT"
  | .COMMITTED => some "COMMITTED"
  | .COMPRESSION => some "COMPRESSION"
  | .COMPUTE => some "COMPUTE"
  | .CONCURRENTLY => some "CONCURRENTLY"
  | .CONDITION => some "CONDITION"
  | .CONFLICT => some "CONFLICT"
  | .CONNECT => some "CONNECT"
  | .CONNECTION => some "CONNECTION"
  | .CONSTRAINT => some "CONSTRAINT"
  | .CONTAINS => some "CONTAINS"
  | .CONVERT => some "CONVERT"
  | .COPY => some "COPY"
  | .COPY_OPTIONS => some "COPY_OPTIONS"
  | .CORR => some "CORR"
  | .CORRESPONDING => some "CORRESPONDING"
  | .COUNT => some "COUNT"
  | .COVAR_POP => some "COVAR_POP"
  | .COVAR_SAMP => some "COVAR_SAMP"
  | .CREATE => some "CREATE"
  | .CREATEDB => some "CREATEDB"
  | .CREATEROLE => some "CREATEROLE"
  | .CREDENTIALS => some "CREDENTIALS"
  | .CROSS => some "CROSS"
  | .CSV => some "CSV"
  | .CUBE => some "CUBE"
  | .CUME_DIST => some "CUME_DIST"
  | .CURRENT => some "CURRENT"
  | .CURRENT_CATALOG => some "CURRENT_CATALOG"
  | .CURRENT_DATE => some "CURRENT_DATE"
  | .CURRENT_DEFAULT_TRANSFORM_GROUP => some "CURRENT_DEFAULT_TRANSFORM_GROUP"
  | .CURRENT_PATH => some "CURRENT_PATH"
  | .CURRENT_ROLE => some "CURRENT_ROLE"
  | .CURRENT_ROW => some "CURRENT_ROW"
  | .CURRENT_SCHEMA => some "CURRENT_SCHEMA"
  | .CURRENT_TIME => some "CURRENT_TIME"
  | .CURRENT_TIMESTAMP => some "CURRENT_TIMESTAMP"
  | .CURRENT_TRANSFORM_GROUP_FOR_TYPE => some "CURRENT_TRANSFORM_GROUP_FOR_TYPE"
  | .CURRENT_USER => some "CURRENT_USER"
  | .CURSOR => some "CURSOR"
  | .CYCLE => some "CYCLE"
  | .DATA => some "DATA"
  | .DATABASE => some "DATABASE"
  | .DATE => some "DATE"
  | .DATETIME => some "DATETIME"
  | .DAY => some "DAY"
  | .DAYOFWEEK => some "DAYOFWEEK"
  | .DAYOFYEAR => some "DAYOFYEAR"
  | .DEALLOCATE => some "DEALLOCATE"
  | .DEC => some "DEC"
  | .DECADE => some "DECADE"
  | .DECIMAL => some "DECIMAL"
  | .DECLARE => some "DECLARE"
  | .DEFAULT => some "DEFAULT"
  | .DEFERRED => some "DEFERRED"
  | .DELETE => some "DELETE"
  | .DELIMITED => some "DELIMITED"
  | .DELIMITER => some "DELIMITER"
  | .DELTA => some "DELTA"
  | .DENSE_RANK => some "DENSE_RANK"
  | .DEREF => some "DEREF"
  | .DESC => some "DESC"
  | .DESCRIBE => some "DESCRIBE"
  | .DETAIL => some "DETAIL"
  | .DETERMINISTIC => some "DETERMINISTIC"
  | .DIRECTORY => some "DIRECTORY"
  | .DISCARD => some "DISCARD"
  | .DISCONNECT => some "DISCONNECT"
  | .DISTINCT => some "DISTINCT"
  | .DISTRIBUTE => some "DISTRIBUTE"
  | .DIV => some "DIV"
  | .DO => some "DO"
  | .DOUBLE => some "DOUBLE"
  | .DOW => some "DOW"
  | .DOY => some "DOY"
  | .DROP => some "DROP"
  | .DRY => some "DRY"
  | .DUPLICATE => some "DUPLICATE"
  | .DYNAMIC => some "DYNAMIC"
  | .EACH => some "EACH"
  | .ELEMENT => some "ELEMENT"
  | .ELEMENTS => some "ELEMENTS"
  | .ELSE => some "ELSE"
  | .EMPTY => some "EMPTY"
  | .ENCODING => some "ENCODING"
  | .ENCRYPTION => some "ENCRYPTION"
  | .END => some "END"
  | .END_EXEC => some "END-EXEC"
  | .ENDPOINT => some "ENDPOINT"
  | .END_FRAME => some "END_FRAME"
  | .END_PARTITION => some "END_PARTITION"
  | .ENGINE => some "ENGINE"
  | .ENUM => some "ENUM"
  | .EPOCH => some "EPOCH"
  | .EQUALS => some "EQUALS"
  | .ERROR => some "ERROR"
  | .ESCAPE => some "ESCAPE"
  | .EVENT => some "EVENT"
  | .EVERY => some "EVERY"
  | .EXCEPT => some "EXCEPT"
  | .EXCLUDE => some "EXCLUDE"
  | .EXCLUSIVE => some "EXCLUSIVE"
  | .EXEC => some "EXEC"
  | .EXECUTE => some "EXECUTE"
  | .EXISTS => some "EXISTS"
  | .EXP => some "EXP"
  | .EXPANSION => some "EXPANSION"
  | .EXPLAIN => some "EXPLAIN"
  | .EXPLICIT => some "EXPLICIT"
  | .EXTENDED => some "EXTENDED"
  | .EXTERNAL => some "EXTERNAL"
  | .EXTRACT => some "EXTRACT"
  | .FAIL => some "FAIL"
  | .FALSE => some "FALSE"
  | .FETCH => some "FETCH"
  | .FIELDS => some "FIELDS"
  | .FILE => some "FILE"
  | .FILES => some "FILES"
  | .FILE_FORMAT => some "FILE_FORMAT"
  | .FILTER => some "FILTER"
  | .FIRST => some "FIRST"
  | .FIRST_VALUE => some "FIRST_VALUE"
  | .FLOAT => some "FLOAT"
  | .FLOAT4 => some "FLOAT4"
  | .FLOAT64 => some "FLOAT64"
  | .FLOAT8 => some "FLOAT8"
  | .FLOOR => some "FLOOR"
  | .FOLLOWING => some "FOLLOWING"
  | .FOR => some "FOR"
  | .FORCE => some "FORCE"
  | .FORCE_NOT_NULL => some "FORCE_NOT_NULL"
  | .FORCE_NULL => some "FORCE_NULL"
  | .FORCE_QUOTE => some "FORCE_QUOTE"
  | .FOREIGN => some "FOREIGN"
  | .FORMAT => some "FORMAT"
  | .FORWARD => some "FORWARD"
  | .FRAME_ROW => some "FRAME_ROW"
  | .FREE => some "FREE"
  | .FREEZE => some "FREEZE"
  | .FROM => some "FROM"
  | .FSCK => some "FSCK"
  | .FULL => some "FULL"
  | .FULLTEXT => some "FULLTEXT"
  | .FUNCTION => some "FUNCTION"
  | .FUNCTIONS => some "FUNCTIONS"
  | .FUSION => some "FUSION"
  | .GENERATE => some "GENERATE"
  | .GENERATED => some "GENERATED"
  | .GEOGRAPHY => some "GEOGRAPHY"
  | .GET => some "GET"
  | .GLOBAL => some "GLOBAL"
  | .GRANT => some "GRANT"
  | .GRANTED => some "GRANTED"
  | .GRAPHVIZ => some "GRAPHVIZ"
  | .GROUP => some "GROUP"
  | .GROUPING => some "GROUPING"
  | .GROUPS => some "GROUPS"
  | .HASH => some "HASH"
  | .HAVING => some "HAVING"
  | .HEADER => some "HEADER"
  | .HISTORY => some "HISTORY"
  | .HIVEVAR => some "HIVEVAR"
  | .HOLD => some "HOLD"
  | .HOUR => some "HOUR"
  | .HOURS => some "HOURS"
  | .IDENTITY => some "IDENTITY"
  | .IF => some "IF"
  | .IGNORE => some "IGNORE"
  | .ILIKE => some "ILIKE"
  | .IMMEDIATE => some "IMMEDIATE"
  | .IMMUTABLE => some "IMMUTABLE"
  | .IN => some "IN"
  | .INCLUDE => some "INCLUDE"
  | .INCLUDE_NULL_VALUES => some "INCLUDE_NULL_VALUES"
  | .INCREMENT => some "INCREMENT"
  | .INDEX => some "INDEX"
  | .INDICATOR => some "INDICATOR"
  | .INHERIT => some "INHERIT"
  | .INNER => some "INNER"
  | .INOUT => some "INOUT"
  | .INPUTFORMAT => some "INPUTFORMAT"
  | .INSENSITIVE => some "INSENSITIVE"
  | .INSERT => some "INSERT"
  | .INT => some "INT"
  | .INT2 => some "INT2"
  | .INT4 => some "INT4"
  | .INT64 => some "INT64"
  | .INT8 => some "INT8"
  | .INTEGER => some "INTEGER"
  | .INTERSECT => some "INTERSECT"
  | .INTERSECTION => some "INTERSECTION"
  | .INTERVAL => some "INTERVAL"
  | .INTO => some "INTO"
  | .IS => some "IS"
  | .ISODOW => some "ISODOW"
  | .ISOLATION => some "ISOLATION"
  | .ISOWEEK => some "ISOWEEK"
  | .ISOYEAR => some "ISOYEAR"
  | .JAR => some "JAR"
  | .JOIN => some "JOIN"
  | .JSON => some "JSON"
  | .JSONFILE => some "JSONFILE"
  | .JSON_TABLE => some "JSON_TABLE"
  | .JULIAN => some "JULIAN"
  | .KEY => some "KEY"
  | .KILL => some "KILL"
  | .LAG => some "LAG"
  | .LANGUAGE => some "LANGUAGE"
  | .LARGE => some "LARGE"
  | .LAST => some "LAST"
  | .LAST_VALUE => some "LAST_VALUE"
  | .LATERAL => some "LATERAL"
  | .LEAD => some "LEAD"
  | .LEADING => some "LEADING"
  | .LEFT => some "LEFT"
  | .LEVEL => some "LEVEL"
  | .LIKE => some "LIKE"
  | .LIKE_REGEX => some "LIKE_REGEX"
  | .LIMIT => some "LIMIT"
  | .LISTAGG => some "LISTAGG"
  | .LN => some "LN"
  | .LOCAL => some "LOCAL"
  | .LOCALTIME => some "LOCALTIME"
  | .LOCALTIMESTAMP => some "LOCALTIMESTAMP"
  | .LOCATION => some "LOCATION"
  | .LOCK => some "LOCK"
  | .LOCKED => some "LOCKED"
  | .LOGIN => some "LOGIN"
  | .LOWER => some "LOWER"
  | .LOW_PRIORITY => some "LOW_PRIORITY"
  | .MACRO => some "MACRO"
  | .MANAGEDLOCATION => some "MANAGEDLOCATION"
  | .MATCH => some "MATCH"
  | .MATCHED => some "MATCHED"
  | .MATERIALIZED => some "MATERIALIZED"
  | .MAX => some "MAX"
  | .MAXVALUE => some "MAXVALUE"
  | .MEDIUMINT => some "MEDIUMINT"
  | .MEMBER => some "MEMBER"
  | .MERGE => some "MERGE"
  | .METADATA => some "METADATA"
  | .METHOD => some "METHOD"
  | .MICROSECOND => some "MICROSECOND"
  | .MICROSECONDS => some "MICROSECONDS"
  | .MILLENIUM => some "MILLENIUM"
  | .MILLENNIUM => some "MILLENNIUM"
  | .MILLISECOND => some "MILLISECOND"
  | .MILLISECONDS => some "MILLISECONDS"
  | .MIN => some "MIN"
  | .MINUTE => some "MINUTE"
  | .MINVALUE => some "MINVALUE"
  | .MOD => some "MOD"
  | .MODE => some "MODE"
  | .MODIFIES => some "MODIFIES"
  | .MODULE => some "MODULE"
  | .MONTH => some "MONTH"
  | .MSCK => some "MSCK"
  | .MULTISET => some "MULTISET"
  | .MUTATION => some "MUTATION"
  | .NAME => some "NAME"
  | .NANOSECOND => some "NANOSECOND"
  | .NANOSECONDS => some "NANOSECONDS"
  | .NATIONAL => some "NATIONAL"
  | .NATURAL => some "NATURAL"
  | .NCHAR => some "NCHAR"
  | .NCLOB => some "NCLOB"
  | .NEW => some "NEW"
  | .NEXT => some "NEXT"
  | .NO => some "NO"
  | .NOBYPASSRLS => some "NOBYPASSRLS"
  | .NOCREATEDB => some "NOCREATEDB"
  | .NOCREATEROLE => some "NOCREATEROLE"
  | .NOINHERIT => some "NOINHERIT"
  | .NOLOGIN => some "NOLOGIN"
  | .NONE => some "NONE"
  | .NOREPLICATION => some "NOREPLICATION"
  | .NORMALIZE => some "NORMALIZE"
  | .NOSCAN => some "NOSCAN"
  | .NOSUPERUSER => some "NOSUPERUSER"
  | .NOT => some "NOT"
  | .NOTHING => some "NOTHING"
  | .NOWAIT => some "NOWAIT"
  | .NTH_VALUE => some "NTH_VALUE"
  | .NTILE => some "NTILE"
  | .NULL => some "NULL"
  | .NULLIF => some "NULLIF"
  | .NULLS => some "NULLS"
  | .NUMERIC => some "NUMERIC"
  | .NVARCHAR => some "NVARCHAR"
  | .OBJECT => some "OBJECT"
  | .OCCURRENCES_REGEX => some "OCCURRENCES_REGEX"
  | .OCTETS => some "OCTETS"
  | .OCTET_LENGTH => some "OCTET_LENGTH"
  | .OF => some "OF"
  | .OFFSET => some "OFFSET"
  | .OLD => some "OLD"
  | .ON => some "ON"
  | .ONLY => some "ONLY"
  | .OPEN => some "OPEN"
  | .OPERATOR => some "OPERATOR"
  | .OPTIMIZE => some "OPTIMIZE"
  | .OPTION => some "OPTION"
  | .OPTIONS => some "OPTIONS"
  | .OR => some "OR"
  | .ORC => some "ORC"
  | .ORDER => some "ORDER"
  | .OUT => some "OUT"
  | .OUTER => some "OUTER"
  | .OUTPUTFORMAT => some "OUTPUTFORMAT"
  | .OVER => some "OVER"
  | .OVERFLOW => some "OVERFLOW"
  | .OVERLAPS => some "OVERLAPS"
  | .OVERLAY => some "OVERLAY"
  | .OVERWRITE => some "OVERWRITE"
  | .OWNED => some "OWNED"
  | .PARAMETER => some "PARAMETER"
  | .PARQUET => some "PARQUET"
  | .PARTITION => some "PARTITION"
  | .PARTITIONED => some "PARTITIONED"
  | .PARTITIONS => some "PARTITIONS"
  | .PASSWORD => some "PASSWORD"
  | .PATH => some "PATH"
  | .PATTERN => some "PATTERN"
  | .PERCENT => some "PERCENT"
  | .PERCENTILE_CONT => some "PERCENTILE_CONT"
  | .PERCENTILE_DISC => some "PERCENTILE_DISC"
  | .PERCENT_RANK => some "PERCENT_RANK"
  | .PERIOD => some "PERIOD"
  | .PIVOT => some "PIVOT"
  | .PLACING => some "PLACING"
  | .PLANS => some "PLANS"
  | .PORTION => some "PORTION"
  | .POSITION => some "POSITION"
  | .POSITION_REGEX => some "POSITION_REGEX"
  | .POWER => some "POWER"
  | .PRAGMA => some "PRAGMA"
  | .PRECEDES => some "PRECEDES"
  | .PRECEDING => some "PRECEDING"
  | .PRECISION => some "PRECISION"
  | .PREPARE => some "PREPARE"
  | .PRESERVE => some "PRESERVE"
  | .PRIMARY => some "PRIMARY"
  | .PRIOR => some "PRIOR"
  | .PRIVILEGES => some "PRIVILEGES"
  | .PROCEDURE => some "PROCEDURE"
  | .PROGRAM => some "PROGRAM"
  | .PURGE => some "PURGE"
  | .QUALIFY => some "QUALIFY"
  | .QUARTER => some "QUARTER"
  | .QUERY => some "QUERY"
  | .QUOTE => some "QUOTE"
  | .RANGE => some "RANGE"
  | .RANK => some "RANK"
  | .RAW => some "RAW"
  | .RCFILE => some "RCFILE"
  | .READ => some "READ"
  | .READS => some "READS"
  | .REAL => some "REAL"
  | .RECURSIVE => some "RECURSIVE"
  | .REF => some "REF"
  | .REFERENCES => some "REFERENCES"
  | .REFERENCING => some "REFERENCING"
  | .REGCLASS => some "REGCLASS"
  | .REGEXP => some "REGEXP"
  | .REGR_AVGX => some "REGR_AVGX"
  | .REGR_AVGY => some "REGR_AVGY"
  | .REGR_COUNT => some "REGR_COUNT"
  | .REGR_INTERCEPT => some "REGR_INTERCEPT"
  | .REGR_R2 => some "REGR_R2"
  | .REGR_SLOPE => some "REGR_SLOPE"
  | .REGR_SXX => some "REGR_SXX"
  | .REGR_SXY => some "REGR_SXY"
  | .REGR_SYY => some "REGR_SYY"
  | .RELATIVE => some "RELATIVE"
  | .RELEASE => some "RELEASE"
  | .RENAME => some "RENAME"
  | .REORG => some "REORG"
  | .REPAIR => some "REPAIR"
  | .REPEATABLE => some "REPEATABLE"
  | .REPLACE => some "REPLACE"
  | .REPLICATION => some "REPLICATION"
  | .RESET => some "RESET"
  | .RESPECT => some "RESPECT"
  | .RESTRICT => some "RESTRICT"
  | .RESULT => some "RESULT"
  | .RETAIN => some "RETAIN"
  | .RETURN => some "RETURN"
  | .RETURNING => some "RETURNING"
  | .RETURNS => some "RETURNS"
  | .REVOKE => some "REVOKE"
  | .RIGHT => some "RIGHT"
  | .RLIKE => some "RLIKE"
  | .ROLE => some "ROLE"
  | .ROLLBACK => some "ROLLBACK"
  | .ROLLUP => some "ROLLUP"
  | .ROOT => some "ROOT"
  | .ROW => some "ROW"
  | .ROWID => some "ROWID"
  | .ROWS => some "ROWS"
  | .ROW_NUMBER => some "ROW_NUMBER"
  | .RUN => some "RUN"
  | .SAFE_CAST => some "SAFE_CAST"
  | .SAVEPOINT => some "SAVEPOINT"
  | .SCHEMA => some "SCHEMA"
  | .SCOPE => some "SCOPE"
  | .SCROLL => some "SCROLL"
  | .SEARCH => some "SEARCH"
  | .SECOND => some "SECOND"
  | .SELECT => some "SELECT"
  | .SEMI => some "SEMI"
  | .SENSITIVE => some "SENSITIVE"
  | .SEQUENCE => some "SEQUENCE"
  | .SEQUENCEFILE => some "SEQUENCEFILE"
  | .SEQUENCES => some "SEQUENCES"
  | .SERDE => some "SERDE"
  | .SERIALIZABLE => some "SERIALIZABLE"
  | .SESSION => some "SESSION"
  | .SESSION_USER => some "SESSION_USER"
  | .SET => some "SET"
  | .SETS => some "SETS"
  | .SHARE => some "SHARE"
  | .SHOW => some "SHOW"
  | .SIMILAR => some "SIMILAR"
  | .SKIP => some "SKIP"
  | .SMALLINT => some "SMALLINT"
  | .SNAPSHOT => some "SNAPSHOT"
  | .SOME => some "SOME"
  | .SORT => some "SORT"
  | .SPATIAL => some "SPATIAL"
  | .SPECIFIC => some "SPECIFIC"
  | .SPECIFICTYPE => some "SPECIFICTYPE"
  | .SQL => some "SQL"
  | .SQLEXCEPTION => some "SQLEXCEPTION"
  | .SQLSTATE => some "SQLSTATE"
  | .SQLWARNING => some "SQLWARNING"
  | .SQRT => some "SQRT"
  | .STABLE => some "STABLE"
  | .STAGE => some "STAGE"
  | .START => some "START"
  | .STATIC => some "STATIC"
  | .STATISTICS => some "STATISTICS"
  | .STDDEV_POP => some "STDDEV_POP"
  | .STDDEV_SAMP => some "STDDEV_SAMP"
  | .STDIN => some "STDIN"
  | .STDOUT => some "STDOUT"
  | .STORAGE_INTEGRATION => some "STORAGE_INTEGRATION"
  | .STORED => some "STORED"
  | .STRICT => some "STRICT"
  | .STRING => some "STRING"
  | .STRUCT => some "STRUCT"
  | .SUBMULTISET => some "SUBMULTISET"
  | .SUBSTRING => some "SUBSTRING"
  | .SUBSTRING_REGEX => some "SUBSTRING_REGEX"
  | .SUCCEEDS => some "SUCCEEDS"
  | .SUM => some "SUM"
  | .SUPER => some "SUPER"
  | .SUPERUSER => some "SUPERUSER"
  | .SWAP => some "SWAP"
  | .SYMMETRIC => some "SYMMETRIC"
  | .SYNC => some "SYNC"
  | .SYSTEM => some "SYSTEM"
  | .SYSTEM_TIME => some "SYSTEM_TIME"
  | .SYSTEM_USER => some "SYSTEM_USER"
  | .TABLE => some "TABLE"
  | .TABLES => some "TABLES"
  | .TABLESAMPLE => some "TABLESAMPLE"
  | .TBLPROPERTIES => some "TBLPROPERTIES"
  | .TEMP => some "TEMP"
  | .TEMPORARY => some "TEMPORARY"
  | .TEXT => some "TEXT"
  | .TEXTFILE => some "TEXTFILE"
  | .THEN => some "THEN"
  | .TIES => some "TIES"
  | .TIME => some "TIME"
  | .TIMESTAMP => some "TIMESTAMP"
  | .TIMESTAMPTZ => some "TIMESTAMPTZ"
  | .TIMETZ => some "TIMETZ"
  | .TIMEZONE => some "TIMEZONE"
  | .TIMEZONE_HOUR => some "TIMEZONE_HOUR"
  | .TIMEZONE_MINUTE => some "TIMEZONE_MINUTE"
  | .TINYINT => some "TINYINT"
  | .TO => some "TO"
  | .TOP => some "TOP"
  | .TRAILING => some "TRAILING"
  | .TRANSACTION => some "TRANSACTION"
  | .TRANSIENT => some "TRANSIENT"
  | .TRANSLATE => some "TRANSLATE"
  | .TRANSLATE_REGEX => some "TRANSLATE_REGEX"
  | .TRANSLATION => some "TRANSLATION"
  | .TREAT => some "TREAT"
  | .TRIGGER => some "TRIGGER"
  | .TRIM => some "TRIM"
  | .TRIM_ARRAY => some "TRIM_ARRAY"
  | .TRUE => some "TRUE"
  | .TRUNCATE => some "TRUNCATE"
  | .TRY_CAST => some "TRY_CAST"
  | .TYPE => some "TYPE"
  | .UESCAPE => some "UESCAPE"
  | .UNBOUNDED => some "UNBOUNDED"
  | .UNCACHE => some "UNCACHE"
  | .UNCOMMITTED => some "UNCOMMITTED"
  | .UNION => some "UNION"
  | .UNIQUE => some "UNIQUE"
  | .UNKNOWN => some "UNKNOWN"
  | .UNLOCK => some "UNLOCK"
  | .UNLOGGED => some "UNLOGGED"
  | .UNNEST => some "UNNEST"
  | .UNPIVOT => some "UNPIVOT"
  | .UNSIGNED => some "UNSIGNED"
  | .UNTIL => some "UNTIL"
  | .UPDATE => some "UPDATE"
  | .UPPER => some "UPPER"
  | .URL => some "URL"
  | .USAGE => some "USAGE"
  | .USE => some "USE"
  | .USER => some "USER"
  | .USING => some "USING"
  | .UUID => some "UUID"
  | .VACUUM => some "VACUUM"
  | .VALID => some "VALID"
  | .VALIDATION_MODE => some "VALIDATION_MODE"
  | .VALUE => some "VALUE"
  | .VALUES => some "VALUES"
  | .VALUE_OF => some "VALUE_OF"
  | .VARBINARY => some "VARBINARY"
  | .VARCHAR => some "VARCHAR"
  | .VARIABLES => some "VARIABLES"
  | .VARYING => some "VARYING"
  | .VAR_POP => some "VAR_POP"
  | .VAR_SAMP => some "VAR_SAMP"
  | .VERBOSE => some "VERBOSE"
  | .VERSIONING => some "VERSIONING"
  | .VIEW => some "VIEW"
  | .VIRTUAL => some "VIRTUAL"
  | .VOLATILE => some "VOLATILE"
  | .WEEK => some "WEEK"
  | .WHEN => some "WHEN"
  | .WHENEVER => some "WHENEVER"
  | .WHERE => some "WHERE"
  | .WIDTH_BUCKET => some "WIDTH_BUCKET"
  | .WINDOW => some "WINDOW"
  | .WITH => some "WITH"
  | .WITHIN => some "WITHIN"
  | .WITHOUT => some "WITHOUT"
  | .WITHOUT_ARRAY_WRAPPER => some "WITHOUT_ARRAY_WRAPPER"
  | .WORK => some "WORK"
  | .WRITE => some "WRITE"
  | .XML => some "XML"
  | .XOR => some "XOR"
  | .YEAR => some "YEAR"
  | .ZONE => some "ZONE"
  | .ZORDER => some "ZORDER"

/-- `RESERVED_FOR_TABLE_ALIAS` from src/keywords.rs. -/
def RESERVED_FOR_TABLE_ALIAS : List Keyword := [
  .WITH,
  .EXPLAIN,
  .ANALYZE,
  .SELECT,
  .WHERE,
  .GROUP,
  .SORT,
  .HAVING,
  .ORDER,
  .PIVOT,
  .UNPIVOT,
  .TOP,
  .LATERAL,
  .VIEW,
  .LIMIT,
  .OFFSET,
  .FETCH,
  .UNION,
  .EXCEPT,
  .INTERSECT,
  .ON,
  .JOIN,
  .INNER,
  .CROSS,
  .FULL,
  .LEFT,
  .RIGHT,
  .NATURAL,
  .USING,
  .CLUSTER,
  .DISTRIBUTE,
  .OUTER,
  .SET,
  .QUALIFY,
  .WINDOW,
  .END,
  .FOR,
  .PARTITION
]

/-- `RESERVED_FOR_COLUMN_ALIAS` from src/keywords.rs. -/
def RESERVED_FOR_COLUMN_ALIAS : List Keyword := [
  .WITH,
  .EXPLAIN,
  .ANALYZE,
  .SELECT,
  .WHERE,
  .GROUP,
  .SORT,
  .HAVING,
  .ORDER,
  .TOP,
  .LATERAL,
  .VIEW,
  .LIMIT,
  .OFFSET,
  .FETCH,
  .UNION,
  .EXCEPT,
  .INTERSECT,
  .CLUSTER,
  .DISTRIBUTE,
  .FROM,
  .INTO,
  .END
]

/-- Character comparison by code point (for the ASCII-only keyword table this
is exactly Rust's bytewise `u8` comparison). -/
def charLt (a b : Char) : Bool :=
  a.toNat < b.toNat

/-- Ordinary lexicographic order on character lists, by code point. -/
def strLtList : List Char → List Char → Bool
  | [], [] => false
  | [], _ :: _ => true
  | _ :: _, [] => false
  | a :: as, b :: bs => charLt a b || (a == b && strLtList as bs)

/-- Ordinary lexicographic (byte/code point) order on strings: Rust's `&str`
comparison that `slice::binary_search` relies on (all table entries are ASCII,
so byte order and code point order coincide). -/
def strLt (a b : String) : Bool :=
  strLtList a.data b.data

/-- Modelled from the spec: ASCII case folding of a single character to
uppercase (`a`-`z` map to `A`-`Z`, everything else is unchanged). -/
def asciiUpperChar (c : Char) : Char :=
  if 'a' ≤ c ∧ c ≤ 'z' then Char.ofNat (c.toNat - 32) else c

/-- Modelled from the spec: the case normalization `lookup` applies to its input
before searching — ASCII uppercase, since all keyword spellings are ASCII. -/
def asciiUpper (s : String) : String :=
  String.mk (s.data.map asciiUpperChar)

/-- Modelled from the spec: ASCII case folding of a single character to
lowercase (`A`-`Z` map to `a`-`z`, everything else is unchanged). -/
def asciiLowerChar (c : Char) : Char :=
  if 'A' ≤ c ∧ c ≤ 'Z' then Char.ofNat (c.toNat + 32) else c

/-- Modelled from the spec: ASCII lowercasing, used to state the
case-insensitivity property. -/
def asciiLower (s : String) : String :=
  String.mk (s.data.map asciiLowerChar)

/-- Modelled from the spec: binary search for `key` in the half-open index range
`[lo, hi)` of the sorted list `l` (Rust `slice::binary_search` as the tokenizer
uses it; the tokenizer is not under the provided sources). The `fuel` argument
only bounds the number of iterations so that the recursion is structural; since
`hi - lo` strictly decreases each round, any `fuel ≥ hi - lo` computes the
search exactly. -/
def binarySearchGo (l : List String) (key : String) : Nat → Nat → Nat → Option Nat
  | 0, _, _ => none
  | fuel + 1, lo, hi =>
    if lo < hi then
      if strLt (l.getD (lo + (hi - lo) / 2) "") key then
        binarySearchGo l key fuel (lo + (hi - lo) / 2 + 1) hi
      else if strLt key (l.getD (lo + (hi - lo) / 2) "") then
        binarySearchGo l key fuel lo (lo + (hi - lo) / 2)
      else
        some (lo + (hi - lo) / 2)
    else none

/-- Modelled from the spec: binary search over the whole list. -/
def binarySearch (l : List String) (key : String) : Option Nat :=
  binarySearchGo l key l.length 0 l.length

/-- Modelled from the spec: `lookup(text)` — case-normalizes `text` to ASCII
uppercase, binary searches the sorted `ALL_KEYWORDS` table, and maps a found
position through the parallel `ALL_KEYWORDS_INDEX`; `none` means "not a
keyword". -/
def lookup (text : String) : Option Keyword :=
  (binarySearch ALL_KEYWORDS (asciiUpper text)).bind fun i => ALL_KEYWORDS_INDEX[i]?

/-- Modelled from the spec: the table-alias reservation test — membership of the
classified symbol in `RESERVED_FOR_TABLE_ALIAS` (total over the whole symbol
space, sentinel included). -/
def is_reserved_for_table_alias (k : Keyword) : Bool :=
  RESERVED_FOR_TABLE_ALIAS.contains k

/-- Modelled from the spec: the column-alias reservation test — membership of
the classified symbol in `RESERVED_FOR_COLUMN_ALIAS` (total over the whole
symbol space, sentinel included). -/
def is_reserved_for_column_alias (k : Keyword) : Bool :=
  RESERVED_FOR_COLUMN_ALIAS.contains k

/-- Strict bytewise sortedness of a spelling list. -/
def strictlySortedStr : List String → Bool
  | [] => true
  | [_] => true
  | a :: b :: rest => strLt a b && strictlySortedStr (b :: rest)

/-- Modelled from the spec: the construction-time validity check on the keyword
tables — it must detect violated sort order, duplicate spellings (ruled out by
strict sortedness), misaligned table lengths, and a disambiguation set that
contains the sentinel or references an undeclared symbol; `false` means
"abort initialization". -/
def construction_check (keywords : List String) (index : List Keyword)
    (tbl col : List Keyword) : Bool :=
  strictlySortedStr keywords
    && (keywords.length == index.length)
    && !(tbl.contains Keyword.NoKeyword)
    && !(col.contains Keyword.NoKeyword)
    && tbl.all (fun k => index.contains k)
    && col.all (fun k => index.contains k)
theorem charLt_irrefl (a : Char) : charLt a a = false := by
  simp [charLt]

theorem charLt_trans {a b c : Char} (h1 : charLt a b = true) (h2 : charLt b c = true) :
    charLt a c = true := by
  simp only [charLt, decide_eq_true_eq] at h1 h2 ⊢
  omega

theorem char_eq_of_not_lt {a b : Char} (h1 : charLt a b = false) (h2 : charLt b a = false) :
    a = b := by
  simp only [charLt, decide_eq_false_iff_not, Nat.not_lt] at h1 h2
  have h : a.toNat = b.toNat := Nat.le_antisymm h2 h1
  calc a = Char.ofNat a.toNat := (Char.ofNat_toNat a).symm
    _ = Char.ofNat b.toNat := by rw [h]
    _ = b := Char.ofNat_toNat b

theorem strLtList_irrefl : ∀ l : List Char, strLtList l l = false
  | [] => rfl
  | a :: as => by
    simp [strLtList, charLt_irrefl, strLtList_irrefl as]

theorem strLtList_trans : ∀ {l1 l2 l3 : List Char}, strLtList l1 l2 = true →
    strLtList l2 l3 = true → strLtList l1 l3 = true
  | [], [], _, h1, _ => by simp [strLtList] at h1
  | [], _ :: _, [], _, h2 => by simp [strLtList] at h2
  | [], _ :: _, _ :: _, _, _ => rfl
  | _ :: _, [], _, h1, _ => by simp [strLtList] at h1
  | _ :: _, _ :: _, [], _, h2 => by simp [strLtList] at h2
  | a :: as, b :: bs, c :: cs, h1, h2 => by
    simp only [strLtList, Bool.or_eq_true, Bool.and_eq_true, beq_iff_eq] at h1 h2 ⊢
    rcases h1 with h1 | ⟨rfl, h1⟩
    · rcases h2 with h2 | ⟨rfl, _⟩
      · exact Or.inl (charLt_trans h1 h2)
      · exact Or.inl h1
    · rcases h2 with h2 | ⟨rfl, h2⟩
      · exact Or.inl h2
      · exact Or.inr ⟨rfl, strLtList_trans h1 h2⟩

theorem strLtList_eq_of_not_lt : ∀ {l1 l2 : List Char}, strLtList l1 l2 = false →
    strLtList l2 l1 = false → l1 = l2
  | [], [], _, _ => rfl
  | [], _ :: _, h1, _ => by simp [strLtList] at h1
  | _ :: _, [], _, h2 => by simp [strLtList] at h2
  | a :: as, b :: bs, h1, h2 => by
    simp only [strLtList, Bool.or_eq_false_iff, Bool.and_eq_false_iff] at h1 h2
    have hab : a = b := char_eq_of_not_lt h1.1 h2.1
    subst hab
    rcases h1.2 with h | h
    · simp at h
    · rcases h2.2 with h' | h'
      · simp at h'
      · rw [strLtList_eq_of_not_lt h h']

theorem strLt_irrefl (s : String) : strLt s s = false :=
  strLtList_irrefl s.data

theorem strLt_trans {s1 s2 s3 : String} (h1 : strLt s1 s2 = true) (h2 : strLt s2 s3 = true) :
    strLt s1 s3 = true :=
  strLtList_trans h1 h2

theorem strLt_eq_of_not_lt {s1 s2 : String} (h1 : strLt s1 s2 = false)
    (h2 : strLt s2 s1 = false) : s1 = s2 :=
  String.ext (strLtList_eq_of_not_lt h1 h2)

theorem strLt_ne {s1 s2 : String} (h : strLt s1 s2 = true) : s1 ≠ s2 := by
  intro he
  rw [he, strLt_irrefl] at h
  cases h

theorem sorted_pairwise : ∀ l : List String, strictlySortedStr l = true →
    List.Pairwise (fun a b => strLt a b = true) l
  | [], _ => List.Pairwise.nil
  | [_], _ => by simp
  | a :: b :: rest, h => by
    have hh : strLt a b = true ∧ strictlySortedStr (b :: rest) = true := by
      simpa [strictlySortedStr] using h
    have ih := sorted_pairwise (b :: rest) hh.2
    refine List.pairwise_cons.mpr ⟨?_, ih⟩
    intro x hx
    rcases List.mem_cons.mp hx with rfl | hx
    · exact hh.1
    · exact strLt_trans hh.1 ((List.pairwise_cons.mp ih).1 x hx)

theorem pairwise_getD {l : List String}
    (h : List.Pairwise (fun a b => strLt a b = true) l)
    {i j : Nat} (hij : i < j) (hj : j < l.length) :
    strLt (l.getD i "") (l.getD j "") = true := by
  have hi : i < l.length := Nat.lt_trans hij hj
  rw [List.getD_eq_getElem?_getD, List.getD_eq_getElem?_getD,
      List.getElem?_eq_getElem hi, List.getElem?_eq_getElem hj,
      Option.getD_some, Option.getD_some]
  exact List.pairwise_iff_getElem.mp h i j hi hj hij

theorem binarySearchGo_some {l : List String} {key : String} :
    ∀ fuel lo hi i : Nat, binarySearchGo l key fuel lo hi = some i →
      lo ≤ i ∧ i < hi ∧ l.getD i "" = key := by
  intro fuel
  induction fuel with
  | zero =>
    intro lo hi i h
    simp [binarySearchGo] at h
  | succ n ih =>
    intro lo hi i h
    rw [binarySearchGo] at h
    split at h
    · rename_i hlohi
      split at h
      · rename_i hlt
        obtain ⟨h1, h2, h3⟩ := ih _ _ _ h
        exact ⟨by omega, h2, h3⟩
      · rename_i hlt
        split at h
        · rename_i hgt
          obtain ⟨h1, h2, h3⟩ := ih _ _ _ h
          exact ⟨h1, by omega, h3⟩
        · rename_i hgt
          injection h with h
          subst h
          refine ⟨by omega, by omega, ?_⟩
          exact strLt_eq_of_not_lt (Bool.not_eq_true _ ▸ hlt) (Bool.not_eq_true _ ▸ hgt)
    · cases h

theorem binarySearchGo_finds {l : List String} {key : String}
    (hp : List.Pairwise (fun a b => strLt a b = true) l) :
    ∀ fuel lo hi i : Nat, hi - lo ≤ fuel → hi ≤ l.length →
      lo ≤ i → i < hi → l.getD i "" = key →
      binarySearchGo l key fuel lo hi = some i := by
  intro fuel
  induction fuel with
  | zero =>
    intro lo hi i h1 _ h3 h4 _
    omega
  | succ n ih =>
    intro lo hi i hfuel hlen hloi hihi hkey
    have hlohi : lo < hi := by omega
    rw [binarySearchGo, if_pos hlohi]
    have hmidlt : lo + (hi - lo) / 2 < hi := by omega
    have hmidlo : lo ≤ lo + (hi - lo) / 2 := by omega
    by_cases hc : strLt (l.getD (lo + (hi - lo) / 2) "") key = true
    · rw [if_pos hc]
      have himid : lo + (hi - lo) / 2 < i := by
        rcases Nat.lt_trichotomy i (lo + (hi - lo) / 2) with hlt | heq | hgt
        · have hpw := pairwise_getD hp hlt (by omega)
          rw [hkey] at hpw
          have := strLt_trans hpw hc
          rw [strLt_irrefl] at this
          cases this
        · rw [← heq, hkey, strLt_irrefl] at hc
          cases hc
        · exact hgt
      exact ih _ _ _ (by omega) hlen (by omega) hihi hkey
    · rw [if_neg hc]
      by_cases hc2 : strLt key (l.getD (lo + (hi - lo) / 2) "") = true
      · rw [if_pos hc2]
        have himid : i < lo + (hi - lo) / 2 := by
          rcases Nat.lt_trichotomy i (lo + (hi - lo) / 2) with hlt | heq | hgt
          · exact hlt
          · rw [← heq, hkey, strLt_irrefl] at hc2
            cases hc2
          · have hpw := pairwise_getD hp hgt (by omega)
            rw [hkey] at hpw
            have := strLt_trans hc2 hpw
            rw [strLt_irrefl] at this
            cases this
        exact ih _ _ _ (by omega) (by omega) hloi himid hkey
      · rw [if_neg hc2]
        have hveq : l.getD (lo + (hi - lo) / 2) "" = key :=
          strLt_eq_of_not_lt (Bool.not_eq_true _ ▸ hc) (Bool.not_eq_true _ ▸ hc2)
        have hmi : lo + (hi - lo) / 2 = i := by
          rcases Nat.lt_trichotomy i (lo + (hi - lo) / 2) with hlt | heq | hgt
          · have hpw := pairwise_getD hp hlt (by omega)
            rw [hkey, hveq] at hpw
            rw [strLt_irrefl] at hpw
            cases hpw
          · exact heq.symm
          · have hpw := pairwise_getD hp hgt (by omega)
            rw [hkey, hveq] at hpw
            rw [strLt_irrefl] at hpw
            cases hpw
        rw [hmi]

theorem binarySearch_some {l : List String} {key : String} {i : Nat}
    (h : binarySearch l key = some i) :
    i < l.length ∧ l.getD i "" = key := by
  obtain ⟨_, h2, h3⟩ := binarySearchGo_some l.length 0 l.length i h
  exact ⟨h2, h3⟩

theorem binarySearch_finds {l : List String} {key : String}
    (hp : List.Pairwise (fun a b => strLt a b = true) l)
    {i : Nat} (hi : i < l.length) (hkey : l.getD i "" = key) :
    binarySearch l key = some i :=
  binarySearchGo_finds hp l.length 0 l.length i (by omega) (Nat.le_refl _)
    (Nat.zero_le _) hi hkey

theorem all_keywords_sorted_bool : strictlySortedStr ALL_KEYWORDS = true := by
  decide

theorem all_keywords_pairwise :
    List.Pairwise (fun a b => strLt a b = true) ALL_KEYWORDS :=
  sorted_pairwise _ all_keywords_sorted_bool

theorem kw_length_eq : ALL_KEYWORDS.length = ALL_KEYWORDS_INDEX.length := by
  decide

theorem all_zip_getD {α β : Type} (p : α × β → Bool) (d1 : α) (d2 : β) :
    ∀ (l1 : List α) (l2 : List β), (List.zip l1 l2).all p = true →
      ∀ i, i < l1.length → i < l2.length → p (l1.getD i d1, l2.getD i d2) = true
  | [], _, _, i, h1, _ => absurd h1 (by simp)
  | _ :: _, [], _, _, _, h2 => absurd h2 (by simp)
  | a :: as, b :: bs, h, 0, _, _ => by
    rw [List.zip_cons_cons, List.all_cons, Bool.and_eq_true] at h
    simpa using h.1
  | a :: as, b :: bs, h, i + 1, h1, h2 => by
    rw [List.zip_cons_cons, List.all_cons, Bool.and_eq_true] at h
    simp only [List.getD_cons_succ]
    exact all_zip_getD p d1 d2 as bs h.2 i (by simpa using h1) (by simpa using h2)

theorem kw_zip_spelling :
    (List.zip ALL_KEYWORDS ALL_KEYWORDS_INDEX).all
      (fun q => spelling_of q.2 == some q.1) = true := by
  decide

theorem kw_zip_name :
    (List.zip ALL_KEYWORDS ALL_KEYWORDS_INDEX).all
      (fun q => (q.2 == Keyword.END_EXEC) || (q.1 == kwName q.2)) = true := by
  decide

theorem kw_zip_endexec :
    (List.zip ALL_KEYWORDS ALL_KEYWORDS_INDEX).all
      (fun q => !(q.2 == Keyword.END_EXEC) || (q.1 == "END-EXEC")) = true := by
  decide

theorem spelling_align : ∀ i, i < ALL_KEYWORDS.length →
    spelling_of (ALL_KEYWORDS_INDEX.getD i .NoKeyword) = some (ALL_KEYWORDS.getD i "") := by
  intro i h
  have h2 : i < ALL_KEYWORDS_INDEX.length := kw_length_eq ▸ h
  have hb : (spelling_of (ALL_KEYWORDS_INDEX.getD i .NoKeyword) ==
      some (ALL_KEYWORDS.getD i "")) = true :=
    all_zip_getD _ "" Keyword.NoKeyword ALL_KEYWORDS ALL_KEYWORDS_INDEX kw_zip_spelling i h h2
  exact beq_iff_eq.mp hb

theorem name_align : ∀ i, i < ALL_KEYWORDS.length →
    ALL_KEYWORDS_INDEX.getD i .NoKeyword ≠ Keyword.END_EXEC →
    ALL_KEYWORDS.getD i "" = kwName (ALL_KEYWORDS_INDEX.getD i .NoKeyword) := by
  intro i h hne
  have h2 : i < ALL_KEYWORDS_INDEX.length := kw_length_eq ▸ h
  have hb : ((ALL_KEYWORDS_INDEX.getD i .NoKeyword == Keyword.END_EXEC) ||
      (ALL_KEYWORDS.getD i "" == kwName (ALL_KEYWORDS_INDEX.getD i .NoKeyword))) = true :=
    all_zip_getD _ "" Keyword.NoKeyword ALL_KEYWORDS ALL_KEYWORDS_INDEX kw_zip_name i h h2
  rw [Bool.or_eq_true] at hb
  rcases hb with hk | hw
  · exact absurd (beq_iff_eq.mp hk) hne
  · exact beq_iff_eq.mp hw

theorem endexec_align : ∀ i, i < ALL_KEYWORDS.length →
    ALL_KEYWORDS_INDEX.getD i .NoKeyword = Keyword.END_EXEC →
    ALL_KEYWORDS.getD i "" = "END-EXEC" := by
  intro i h heq
  have h2 : i < ALL_KEYWORDS_INDEX.length := kw_length_eq ▸ h
  have hb : ((!(ALL_KEYWORDS_INDEX.getD i .NoKeyword == Keyword.END_EXEC)) ||
      (ALL_KEYWORDS.getD i "" == "END-EXEC")) = true :=
    all_zip_getD _ "" Keyword.NoKeyword ALL_KEYWORDS ALL_KEYWORDS_INDEX kw_zip_endexec i h h2
  rw [Bool.or_eq_true] at hb
  rcases hb with hk | hw
  · rw [heq] at hk
    simp at hk
  · exact beq_iff_eq.mp hw

theorem kw_upper_fixed : ALL_KEYWORDS.all (fun w => asciiUpper w == w) = true := by
  decide

theorem kw_lower_upper :
    ALL_KEYWORDS.all (fun w => asciiUpper (asciiLower w) == asciiUpper w) = true := by
  decide

theorem getD_eq_getElem_of_lt {l : List String} {i : Nat} (h : i < l.length) :
    l.getD i "" = l[i] := by
  rw [List.getD_eq_getElem?_getD, List.getElem?_eq_getElem h, Option.getD_some]

theorem getD_idx_eq_getElem_of_lt {l : List Keyword} {i : Nat} (h : i < l.length) :
    l.getD i .NoKeyword = l[i] := by
  rw [List.getD_eq_getElem?_getD, List.getElem?_eq_getElem h, Option.getD_some]
/-- Claim C1: for every declared keyword symbol s (every element of
ALL_KEYWORDS_INDEX; the sentinel is not declared), looking up the canonical
spelling of s — case-normalized to uppercase, via binary search over the sorted
spelling table ALL_KEYWORDS paired with ALL_KEYWORDS_INDEX — returns exactly s:
the spelling-to-symbol lookup round-trips with the symbol-to-spelling
mapping. -/
theorem C1_lookup_spelling_roundtrip :
    ∀ s ∈ ALL_KEYWORDS_INDEX, ∃ w, spelling_of s = some w ∧ lookup w = some s := by
  intro s hs
  obtain ⟨i, hi, hgi⟩ := List.mem_iff_getElem.mp hs
  have hiK : i < ALL_KEYWORDS.length := by
    rw [kw_length_eq]
    exact hi
  refine ⟨ALL_KEYWORDS.getD i "", ?_, ?_⟩
  · have halign := spelling_align i hiK
    rw [getD_idx_eq_getElem_of_lt hi, hgi] at halign
    exact halign
  · have hmem : ALL_KEYWORDS.getD i "" ∈ ALL_KEYWORDS := by
      rw [getD_eq_getElem_of_lt hiK]
      exact List.getElem_mem hiK
    have hup : asciiUpper (ALL_KEYWORDS.getD i "") = ALL_KEYWORDS.getD i "" :=
      beq_iff_eq.mp (List.all_eq_true.mp kw_upper_fixed _ hmem)
    have hbs : binarySearch ALL_KEYWORDS (asciiUpper (ALL_KEYWORDS.getD i "")) = some i := by
      rw [hup]
      exact binarySearch_finds all_keywords_pairwise hiK rfl
    unfold lookup
    rw [hbs]
    simp only [Option.some_bind]
    rw [List.getElem?_eq_getElem hi, hgi]

/-- Witness for C1 at the symbol SELECT. -/
theorem C1_witness :
    ∃ w, spelling_of Keyword.SELECT = some w ∧ lookup w = some Keyword.SELECT :=
  C1_lookup_spelling_roundtrip Keyword.SELECT (by decide)

/-- Claim C2: the spelling sequence ALL_KEYWORDS (including the alternate
spelling "END-EXEC") is strictly increasing under ordinary byte/code point
lexicographic order: for every pair of indices i < j, ALL_KEYWORDS[i] is
strictly below ALL_KEYWORDS[j] under strLt, the explicit code point
lexicographic comparison (bytewise on this ASCII-only table). -/
theorem C2_all_keywords_strictly_sorted :
    ∀ (i j : Nat) (hi : i < ALL_KEYWORDS.length) (hj : j < ALL_KEYWORDS.length),
      i < j → strLt (ALL_KEYWORDS.get ⟨i, hi⟩) (ALL_KEYWORDS.get ⟨j, hj⟩) = true := by
  intro i j hi hj hij
  have h := List.pairwise_iff_getElem.mp all_keywords_pairwise i j hi hj hij
  simpa [List.get_eq_getElem] using h

/-- Witness for C2 at the first two spellings. -/
theorem C2_witness :
    strLt (ALL_KEYWORDS.get ⟨0, by decide⟩) (ALL_KEYWORDS.get ⟨1, by decide⟩) = true :=
  C2_all_keywords_strictly_sorted 0 1 (by decide) (by decide) (by decide)

/-- Counterexample to claim C3 as stated: the claim asserts that CLUSTER,
DISTRIBUTE and END are members of the table-alias set but not of the
column-alias set (and, inconsistently, also lists END as column-only); in
src/keywords.rs all three are members of both RESERVED_FOR_TABLE_ALIAS and
RESERVED_FOR_COLUMN_ALIAS. -/
theorem C3_counterexample :
    Keyword.CLUSTER ∈ RESERVED_FOR_COLUMN_ALIAS ∧
    Keyword.DISTRIBUTE ∈ RESERVED_FOR_COLUMN_ALIAS ∧
    Keyword.END ∈ RESERVED_FOR_COLUMN_ALIAS ∧
    Keyword.END ∈ RESERVED_FOR_TABLE_ALIAS :=
  ⟨by decide, by decide, by decide, by decide⟩

/-- Claim C3 amended: each of JOIN, INNER, CROSS, FULL, LEFT, RIGHT, NATURAL,
USING, OUTER, ON, SET, QUALIFY, WINDOW, FOR, PARTITION is in the table-alias
set and not in the column-alias set; each of CLUSTER, DISTRIBUTE, END is in
both sets; each of FROM, INTO is in the column-alias set and not in the
table-alias set. -/
theorem C3_amended_membership :
    Keyword.JOIN ∈ RESERVED_FOR_TABLE_ALIAS ∧
    Keyword.JOIN ∉ RESERVED_FOR_COLUMN_ALIAS ∧
    Keyword.INNER ∈ RESERVED_FOR_TABLE_ALIAS ∧
    Keyword.INNER ∉ RESERVED_FOR_COLUMN_ALIAS ∧
    Keyword.CROSS ∈ RESERVED_FOR_TABLE_ALIAS ∧
    Keyword.CROSS ∉ RESERVED_FOR_COLUMN_ALIAS ∧
    Keyword.FULL ∈ RESERVED_FOR_TABLE_ALIAS ∧
    Keyword.FULL ∉ RESERVED_FOR_COLUMN_ALIAS ∧
    Keyword.LEFT ∈ RESERVED_FOR_TABLE_ALIAS ∧
    Keyword.LEFT ∉ RESERVED_FOR_COLUMN_ALIAS ∧
    Keyword.RIGHT ∈ RESERVED_FOR_TABLE_ALIAS ∧
    Keyword.RIGHT ∉ RESERVED_FOR_COLUMN_ALIAS ∧
    Keyword.NATURAL ∈ RESERVED_FOR_TABLE_ALIAS ∧
    Keyword.NATURAL ∉ RESERVED_FOR_COLUMN_ALIAS ∧
    Keyword.USING ∈ RESERVED_FOR_TABLE_ALIAS ∧
    Keyword.USING ∉ RESERVED_FOR_COLUMN_ALIAS ∧
    Keyword.OUTER ∈ RESERVED_FOR_TABLE_ALIAS ∧
    Keyword.OUTER ∉ RESERVED_FOR_COLUMN_ALIAS ∧
    Keyword.ON ∈ RESERVED_FOR_TABLE_ALIAS ∧
    Keyword.ON ∉ RESERVED_FOR_COLUMN_ALIAS ∧
    Keyword.SET ∈ RESERVED_FOR_TABLE_ALIAS ∧
    Keyword.SET ∉ RESERVED_FOR_COLUMN_ALIAS ∧
    Keyword.QUALIFY ∈ RESERVED_FOR_TABLE_ALIAS ∧
    Keyword.QUALIFY ∉ RESERVED_FOR_COLUMN_ALIAS ∧
    Keyword.WINDOW ∈ RESERVED_FOR_TABLE_ALIAS ∧
    Keyword.WINDOW ∉ RESERVED_FOR_COLUMN_ALIAS ∧
    Keyword.FOR ∈ RESERVED_FOR_TABLE_ALIAS ∧
    Keyword.FOR ∉ RESERVED_FOR_COLUMN_ALIAS ∧
    Keyword.PARTITION ∈ RESERVED_FOR_TABLE_ALIAS ∧
    Keyword.PARTITION ∉ RESERVED_FOR_COLUMN_ALIAS ∧
    Keyword.CLUSTER ∈ RESERVED_FOR_TABLE_ALIAS ∧
    Keyword.CLUSTER ∈ RESERVED_FOR_COLUMN_ALIAS ∧
    Keyword.DISTRIBUTE ∈ RESERVED_FOR_TABLE_ALIAS ∧
    Keyword.DISTRIBUTE ∈ RESERVED_FOR_COLUMN_ALIAS ∧
    Keyword.END ∈ RESERVED_FOR_TABLE_ALIAS ∧
    Keyword.END ∈ RESERVED_FOR_COLUMN_ALIAS ∧
    Keyword.FROM ∈ RESERVED_FOR_COLUMN_ALIAS ∧
    Keyword.FROM ∉ RESERVED_FOR_TABLE_ALIAS ∧
    Keyword.INTO ∈ RESERVED_FOR_COLUMN_ALIAS ∧
    Keyword.INTO ∉ RESERVED_FOR_TABLE_ALIAS := by
  repeat' apply And.intro
  all_goals decide

/-- Claim C4 (the check itself is modelled from the spec; the provided sources
contain only the tables): the construction-time validity check passes on the
actual tables, and it detects violated sort order, duplicate spellings, and a
disambiguation set containing the sentinel, returning false (abort
initialization) on such corrupt data rather than silently proceeding. -/
theorem C4_construction_check_detects :
    construction_check ALL_KEYWORDS ALL_KEYWORDS_INDEX RESERVED_FOR_TABLE_ALIAS
      RESERVED_FOR_COLUMN_ALIAS = true ∧
    construction_check ["ABS", "ABORT"] [Keyword.ABS, Keyword.ABORT] [] [] = false ∧
    construction_check ["ABORT", "ABORT"] [Keyword.ABORT, Keyword.ABORT] [] [] = false ∧
    construction_check ["ABORT"] [Keyword.ABORT] [Keyword.NoKeyword] [] = false :=
  ⟨by decide, by decide, by decide, by decide⟩

/-- Claim C5: lookup is case-insensitive — for every declared keyword symbol,
looking up the ASCII-lowercased form of its canonical spelling returns the same
result as looking up the canonical spelling itself, because lookup
ASCII-uppercases its input before the binary search and every stored spelling
is ASCII. -/
theorem C5_lookup_case_insensitive :
    ∀ s ∈ ALL_KEYWORDS_INDEX, ∀ w, spelling_of s = some w →
      lookup (asciiLower w) = lookup w := by
  intro s hs w hw
  obtain ⟨i, hi, hgi⟩ := List.mem_iff_getElem.mp hs
  have hiK : i < ALL_KEYWORDS.length := by
    rw [kw_length_eq]
    exact hi
  have halign := spelling_align i hiK
  rw [getD_idx_eq_getElem_of_lt hi, hgi, hw] at halign
  injection halign with hw'
  subst hw'
  have hmem : ALL_KEYWORDS.getD i "" ∈ ALL_KEYWORDS := by
    rw [getD_eq_getElem_of_lt hiK]
    exact List.getElem_mem hiK
  have hlu : asciiUpper (asciiLower (ALL_KEYWORDS.getD i "")) =
      asciiUpper (ALL_KEYWORDS.getD i "") :=
    beq_iff_eq.mp (List.all_eq_true.mp kw_lower_upper _ hmem)
  unfold lookup
  rw [hlu]

/-- Witness for C5 at the spelling of SELECT. -/
theorem C5_witness : lookup (asciiLower "SELECT") = lookup "SELECT" :=
  C5_lookup_case_insensitive Keyword.SELECT (by decide) "SELECT" (by decide)

/-- Claim C6: for every input whose uppercased form equals no stored spelling,
lookup returns none; in particular lookup of "FOOBARBAZ", of "selectx" (no
prefix or partial matching) and of the empty string are all none. -/
theorem C6_lookup_not_found :
    (∀ t : String, asciiUpper t ∉ ALL_KEYWORDS → lookup t = none) ∧
    lookup "FOOBARBAZ" = none ∧ lookup "selectx" = none ∧ lookup "" = none := by
  have hgen : ∀ t : String, asciiUpper t ∉ ALL_KEYWORDS → lookup t = none := by
    intro t hnot
    unfold lookup
    cases hbs : binarySearch ALL_KEYWORDS (asciiUpper t) with
    | none => rfl
    | some i =>
      obtain ⟨hlen, hkey⟩ := binarySearch_some hbs
      exfalso
      apply hnot
      rw [← hkey, getD_eq_getElem_of_lt hlen]
      exact List.getElem_mem hlen
  exact ⟨hgen, by decide, by decide, by decide⟩

/-- Witness for C6 at a concrete non-keyword text. -/
theorem C6_witness : lookup "zzzzy" = none :=
  C6_lookup_not_found.1 "zzzzy" (by decide)

/-- Claim C7: no spelling appears twice in ALL_KEYWORDS — the spellings are
pairwise distinct (AUTOINCREMENT vs AUTO_INCREMENT and MILLENIUM vs MILLENNIUM
remain distinct strings), so the symbol-to-spelling mapping is injective on the
declared symbols. -/
theorem C7_spelling_injective :
    List.Pairwise (fun a b => a ≠ b) ALL_KEYWORDS ∧
    ∀ s ∈ ALL_KEYWORDS_INDEX, ∀ t ∈ ALL_KEYWORDS_INDEX,
      spelling_of s = spelling_of t → s = t := by
  constructor
  · exact all_keywords_pairwise.imp (fun h => strLt_ne h)
  · intro s hs t ht hst
    obtain ⟨i, hi, hgi⟩ := List.mem_iff_getElem.mp hs
    obtain ⟨j, hj, hgj⟩ := List.mem_iff_getElem.mp ht
    have hiK : i < ALL_KEYWORDS.length := by
      rw [kw_length_eq]
      exact hi
    have hjK : j < ALL_KEYWORDS.length := by
      rw [kw_length_eq]
      exact hj
    have hai := spelling_align i hiK
    have haj := spelling_align j hjK
    rw [getD_idx_eq_getElem_of_lt hi, hgi] at hai
    rw [getD_idx_eq_getElem_of_lt hj, hgj] at haj
    rw [hst, haj] at hai
    injection hai with hkey
    have hij : i = j := by
      rcases Nat.lt_trichotomy i j with h | h | h
      · have hpw := pairwise_getD all_keywords_pairwise h hjK
        rw [← hkey, strLt_irrefl] at hpw
        cases hpw
      · exact h
      · have hpw := pairwise_getD all_keywords_pairwise h hiK
        rw [← hkey, strLt_irrefl] at hpw
        cases hpw
    subst hij
    rw [← hgi, ← hgj]

/-- Witness for C7: injectivity applied at the concrete symbol ABORT. -/
theorem C7_witness : Keyword.ABORT = Keyword.ABORT :=
  C7_spelling_injective.2 Keyword.ABORT (by decide) Keyword.ABORT (by decide) rfl

/-- Claim C8: the sentinel NoKeyword is not an element of ALL_KEYWORDS_INDEX,
nor of RESERVED_FOR_TABLE_ALIAS, nor of RESERVED_FOR_COLUMN_ALIAS, and both
reservation tests (total over the whole symbol space) return false on it. -/
theorem C8_sentinel_not_reserved :
    Keyword.NoKeyword ∉ ALL_KEYWORDS_INDEX ∧
    Keyword.NoKeyword ∉ RESERVED_FOR_TABLE_ALIAS ∧
    Keyword.NoKeyword ∉ RESERVED_FOR_COLUMN_ALIAS ∧
    is_reserved_for_table_alias Keyword.NoKeyword = false ∧
    is_reserved_for_column_alias Keyword.NoKeyword = false :=
  ⟨by decide, by decide, by decide, by decide, by decide⟩

/-- Claim C9: SELECT is a member of both disambiguation sets, and both
reservation tests return true on it. -/
theorem C9_select_reserved_both :
    Keyword.SELECT ∈ RESERVED_FOR_TABLE_ALIAS ∧
    Keyword.SELECT ∈ RESERVED_FOR_COLUMN_ALIAS ∧
    is_reserved_for_table_alias Keyword.SELECT = true ∧
    is_reserved_for_column_alias Keyword.SELECT = true :=
  ⟨by decide, by decide, by decide, by decide⟩

/-- Claim C10: ALL_KEYWORDS and ALL_KEYWORDS_INDEX are index-aligned parallel
arrays — same length, and at every index the string is the canonical spelling
of the symbol; every spelling equals its symbol's own name except the single
symbol END_EXEC, whose spelling is "END-EXEC". -/
theorem C10_parallel_aligned :
    ALL_KEYWORDS.length = ALL_KEYWORDS_INDEX.length ∧
    (∀ i, i < ALL_KEYWORDS.length →
      spelling_of (ALL_KEYWORDS_INDEX.getD i .NoKeyword) =
        some (ALL_KEYWORDS.getD i "")) ∧
    (∀ i, i < ALL_KEYWORDS.length →
      ALL_KEYWORDS_INDEX.getD i .NoKeyword ≠ Keyword.END_EXEC →
      ALL_KEYWORDS.getD i "" = kwName (ALL_KEYWORDS_INDEX.getD i .NoKeyword)) ∧
    (∀ i, i < ALL_KEYWORDS.length →
      ALL_KEYWORDS_INDEX.getD i .NoKeyword = Keyword.END_EXEC →
      ALL_KEYWORDS.getD i "" = "END-EXEC") :=
  ⟨kw_length_eq, spelling_align, name_align, endexec_align⟩

/-- Witness for C10 at index 0 and at index 175, the position of END_EXEC. -/
theorem C10_witness :
    spelling_of (ALL_KEYWORDS_INDEX.getD 0 .NoKeyword) =
      some (ALL_KEYWORDS.getD 0 "") ∧
    ALL_KEYWORDS.getD 0 "" = kwName (ALL_KEYWORDS_INDEX.getD 0 .NoKeyword) ∧
    ALL_KEYWORDS.getD 175 "" = "END-EXEC" :=
  ⟨C10_parallel_aligned.2.1 0 (by decide),
   C10_parallel_aligned.2.2.1 0 (by decide) (by decide),
   C10_parallel_aligned.2.2.2 175 (by decide) (by decide)⟩
